import Mathlib

/-!
Verification of the DW1000 driver core (high-level `hl` module): a shallow
embedding of `src/dw1000/src/hl/{ready,sending,uninitialized,error}.rs`.

The register access layer (`ll`) is an external collaborator in the design:
it is modelled as an explicit register file (`Regs`) plus a trace of the
register operations performed (`Action`), with SPI transport faults injected
through a `faults` script.  Each `ll` read/modify/write is one logged step
that can fail with a transport error.  The `modify` combinator of the real
`ll` layer performs a read-modify-write on one register; it is modelled as a
single step whose logged action records the value written.

Machine integers are modelled as `Nat` with explicit `% 256` where u8
wrap-around matters (the frame sequence counter).  Fallible Rust code
returns `Except`-style results; the `panic!` in `send`'s writer closure is
modelled as a distinct `panicked` outcome.
-/

namespace Dw

/-- Converts a Rust `bool as u8` cast. -/
def b2n (b : Bool) : Nat := if b then 1 else 0

/-! ## Configuration types

`TxConfig`, `RxConfig` and their parameter enums live in `configs.rs`, which
is not part of the given sources; the variants and fields below are taken
from their uses in `ready.rs`/`sending.rs` and from the specification's
data-model section.  The recommended-tuning lookup tables of `configs.rs`
are collaborator data and are passed in as a `Tuning` record of functions,
with the two fallible derivations returning `Option`.
-/

/-- Bit rate choices used by the driver (`config.bitrate as u8`,
`config.bitrate == BitRate::Kbps110`). -/
inductive BitRate where
  | Kbps110
  | Kbps850
  | Kbps6800
deriving DecidableEq, Repr

/-- Register encoding of a bit rate (the Rust `as u8` cast). -/
def BitRate.toNat : BitRate → Nat
  | .Kbps110 => 0
  | .Kbps850 => 1
  | .Kbps6800 => 2

/-- Pulse repetition frequency (`config.pulse_repetition_frequency as u8`). -/
inductive PulseRepetitionFrequency where
  | Mhz16
  | Mhz64
deriving DecidableEq, Repr

/-- Register encoding of a PRF (the Rust `as u8` cast). -/
def PulseRepetitionFrequency.toNat : PulseRepetitionFrequency → Nat
  | .Mhz16 => 1
  | .Mhz64 => 2

/-- SFD sequence kind, matched on in `send_raw` and `config_receiving`. -/
inductive SfdSequence where
  | IEEE
  | Decawave
  | DecawaveAlt
  | User
deriving DecidableEq, Repr

/-- Auto-acknowledge setting of an `RxConfig`
(`AutoAck::Enabled { turnaround_time }` is matched in `config_receiving`). -/
inductive AutoAck where
  | Disabled
  | Enabled (turnaround_time : Nat)
deriving DecidableEq, Repr

/-- What mode a transmission continues into, from `configs.rs` as used by
`send_raw`, `finish_sending` and `continue_receiving*`. -/
inductive TxContinuation where
  | Ready
  | Rx (frame_filtering : Bool) (auto_ack : AutoAck)
  | RxDoubleBuffered (frame_filtering : Bool) (auto_ack : AutoAck)
deriving DecidableEq, Repr

/-- Modelled from the spec: `TxConfig` (`configs.rs` is not among the given
sources).  Fields are those read by `send_raw`: channel, bitrate, PRF,
preamble length (its 4-bit register code), SFD sequence kind, ranging and
CRC flags, and the continuation. -/
structure TxConfig where
  channel : Nat
  bitrate : BitRate
  pulse_repetition_frequency : PulseRepetitionFrequency
  preamble_length : Nat
  sfd_sequence : SfdSequence
  ranging_enable : Bool
  append_crc : Bool
  continuation : TxContinuation
deriving DecidableEq, Repr

/-- Modelled from the spec: `RxConfig` (`configs.rs` is not among the given
sources).  Fields are those read by `config_receiving`. -/
structure RxConfig where
  channel : Nat
  bitrate : BitRate
  pulse_repetition_frequency : PulseRepetitionFrequency
  expected_preamble_length : Nat
  sfd_sequence : SfdSequence
  frame_filtering : Bool
  auto_ack : AutoAck
deriving DecidableEq, Repr

/-- Modelled from the spec: `RxConfig::from_tx_config` (`configs.rs` is not
among the given sources).  Per the spec's derivation rule, channel, bitrate,
PRF and SFD sequence are copied verbatim from the `TxConfig` (together with
the expected preamble length, which `RxConfig` requires); only frame
filtering and auto-ack come from the continuation-specific arguments. -/
def RxConfig.from_tx_config (tx_config : TxConfig) (frame_filtering : Bool)
    (auto_ack : AutoAck) : RxConfig where
  channel := tx_config.channel
  bitrate := tx_config.bitrate
  pulse_repetition_frequency := tx_config.pulse_repetition_frequency
  expected_preamble_length := tx_config.preamble_length
  sfd_sequence := tx_config.sfd_sequence
  frame_filtering := frame_filtering
  auto_ack := auto_ack

/-- Recommended-tuning lookup tables of `configs.rs`, treated as collaborator
data (the spec excludes the exhaustive constant tables from scope).  The two
`drx_tune*` derivations are fallible in the source (`Result<_, Error>`);
they are the `Option`-valued fields here. -/
structure Tuning where
  preamble_code : Nat → PulseRepetitionFrequency → Nat
  rf_txctrl : Nat → Nat
  tc_pgdelay : Nat → Nat
  fs_pllcfg : Nat → Nat
  fs_plltune : Nat → Nat
  lde_cfg2 : PulseRepetitionFrequency → Nat
  lde_repc : Nat → PulseRepetitionFrequency → BitRate → Nat
  drx_tune0b : BitRate → SfdSequence → Nat
  drx_tune1a : PulseRepetitionFrequency → Nat
  drx_tune1b : Nat → BitRate → Option Nat
  pac_size : Nat → Nat
  drx_tune2 : PulseRepetitionFrequency → Nat → Option Nat
  drx_tune4h : Nat → Nat
  rf_rxctrlh : Nat → Nat

/-! ## Register file -/

/-- SYS_STATUS bitfields used by the driver.  Written bits are
write-1-to-clear in hardware; `hsrbp`/`icrbp` are read-only pointers. -/
structure SysStatus where
  txfrb : Nat := 0
  txprs : Nat := 0
  txphs : Nat := 0
  txfrs : Nat := 0
  cplock : Nat := 0
  clkpll_ll : Nat := 0
  hsrbp : Nat := 0
  icrbp : Nat := 0
deriving DecidableEq, Repr

/-- Write-1-to-clear semantics of a SYS_STATUS write: event flags with a 1
in the written pattern are cleared, the rest keep their value; the buffer
pointers are read-only. -/
def SysStatus.w1c (old m : SysStatus) : SysStatus where
  txfrb := if m.txfrb = 0 then old.txfrb else 0
  txprs := if m.txprs = 0 then old.txprs else 0
  txphs := if m.txphs = 0 then old.txphs else 0
  txfrs := if m.txfrs = 0 then old.txfrs else 0
  cplock := if m.cplock = 0 then old.cplock else 0
  clkpll_ll := if m.clkpll_ll = 0 then old.clkpll_ll else 0
  hsrbp := old.hsrbp
  icrbp := old.icrbp

/-- SYS_CTRL bitfields used by the driver. -/
structure SysCtrl where
  sfcst : Nat := 0
  txstrt : Nat := 0
  txdlys : Nat := 0
  trxoff : Nat := 0
  wait4resp : Nat := 0
  hrbpt : Nat := 0
  rxenab : Nat := 0
deriving DecidableEq, Repr

/-- SYS_CFG bitfields used by the driver. -/
structure SysCfg where
  ffen : Nat := 0
  ffab : Nat := 0
  ffad : Nat := 0
  ffaa : Nat := 0
  ffam : Nat := 0
  dis_drxb : Nat := 0
  rxautr : Nat := 0
  rxm110k : Nat := 0
  autoack : Nat := 0
  hirq_pol : Nat := 0
deriving DecidableEq, Repr

/-- EC_CTRL bitfields used by the driver. -/
structure EcCtrl where
  pllldt : Nat := 0
  osrsm : Nat := 0
  ostrm : Nat := 0
  ostsm : Nat := 0
  wait : Nat := 0
deriving DecidableEq, Repr

/-- CHAN_CTRL bitfields used by the driver. -/
structure ChanCtrl where
  tx_chan : Nat := 0
  rx_chan : Nat := 0
  dwsfd : Nat := 0
  rxprf : Nat := 0
  tnssfd : Nat := 0
  rnssfd : Nat := 0
  tx_pcode : Nat := 0
  rx_pcode : Nat := 0
deriving DecidableEq, Repr

/-- TX_FCTRL bitfields used by the driver. -/
structure TxFctrl where
  tflen : Nat := 0
  tfle : Nat := 0
  txboffs : Nat := 0
  txbr : Nat := 0
  tr : Nat := 0
  txprf : Nat := 0
  txpsr : Nat := 0
  pe : Nat := 0
deriving DecidableEq, Repr

/-- ACK_RESP_T bitfields used by the driver. -/
structure AckRespT where
  ack_tim : Nat := 0
  w4r_tim : Nat := 0
deriving DecidableEq, Repr

/-- PMSC_CTRL0 bitfields used by the driver. -/
structure PmscCtrl0 where
  sysclks : Nat := 0
  softreset : Nat := 0
deriving DecidableEq, Repr

/-- AON_CFG0 bitfields used by the driver. -/
structure AonCfg0 where
  sleep_tim : Nat := 0
  wake_spi : Nat := 0
  wake_cnt : Nat := 0
  sleep_en : Nat := 0
deriving DecidableEq, Repr

/-- AON_CFG1 bitfields used by the driver. -/
structure AonCfg1 where
  sleep_cen : Nat := 0
  smxx : Nat := 0
  lposc_cal : Nat := 0
deriving DecidableEq, Repr

/-- AON_CTRL bitfields used by the driver. -/
structure AonCtrl where
  upl_cfg : Nat := 0
  save : Nat := 0
deriving DecidableEq, Repr

/-- AON_WCFG bitfields used by the driver. -/
structure AonWcfg where
  onw_ldc : Nat := 0
  onw_llde : Nat := 0
  onw_lldo : Nat := 0
  onw_l64p : Nat := 0
deriving DecidableEq, Repr

/-- SYS_MASK bitfields used by the driver in the embedded operations. -/
structure SysMask where
  mtxfrs : Nat := 0
  mslp2init : Nat := 0
  mcplock : Nat := 0
deriving DecidableEq, Repr

/-- PANADR bitfields (network id and short address). -/
structure Panadr where
  pan_id : Nat := 0
  short_addr : Nat := 0
deriving DecidableEq, Repr

/-- The register file: every register touched by the embedded operations.
Plain registers hold their whole value as a `Nat`.  The `otp` association
list models the one-time-programmable memory read by `read_otp`. -/
structure Regs where
  evc_hpw : Nat := 0
  evc_tpw : Nat := 0
  sys_status : SysStatus := {}
  sys_ctrl : SysCtrl := {}
  sys_cfg : SysCfg := {}
  ec_ctrl : EcCtrl := {}
  chan_ctrl : ChanCtrl := {}
  tx_fctrl : TxFctrl := {}
  dx_time : Nat := 0
  tx_time : Nat := 0
  tx_buffer : List Nat := []
  sfd_length : Nat := 0
  rf_txctrl : Nat := 0
  tc_pgdelay : Nat := 0
  fs_pllcfg : Nat := 0
  fs_plltune : Nat := 0
  lde_cfg2 : Nat := 0
  lde_repc : Nat := 0
  drx_tune0b : Nat := 0
  drx_tune1a : Nat := 0
  drx_tune1b : Nat := 0
  drx_tune2 : Nat := 0
  drx_tune4h : Nat := 0
  rf_rxctrlh : Nat := 0
  ack_resp_t : AckRespT := {}
  pmsc_ctrl0 : PmscCtrl0 := {}
  aon_cfg0 : AonCfg0 := {}
  aon_cfg1 : AonCfg1 := {}
  aon_ctrl : AonCtrl := {}
  aon_wcfg : AonWcfg := {}
  sys_mask : SysMask := {}
  panadr : Panadr := {}
  tx_antd : Nat := 0
  lde_rxantd : Nat := 0
  otp : List (Nat × Nat) := []
deriving DecidableEq, Repr

/-- Lookup in the OTP memory model (absent addresses read as 0). -/
def otpLookup (addr : Nat) (l : List (Nat × Nat)) : Nat :=
  ((l.find? fun p => p.fst == addr).map Prod.snd).getD 0

/-! ## Observed register operations -/

/-- One observable register-layer operation.  `rd*` are reads, `wr*` are
writes (for `modify` operations the logged value is the value written
back).  `callConfigReceiving` marks an invocation of `config_receiving`
with the `RxConfig` it was given; it is an observation marker, not an SPI
transaction. -/
inductive Action where
  | rdEvcHpw
  | rdEvcTpw
  | rdSysStatus
  | rdEvcCtrl
  | rdTxTime
  | rdPanadr
  | rdTxAntd
  | rdOtp (addr : Nat)
  | wrSysStatus (m : SysStatus)
  | wrSysCtrl (v : SysCtrl)
  | wrSysCfg (v : SysCfg)
  | wrEcCtrl (v : EcCtrl)
  | wrEvcCtrl (evc_clr : Nat) (evc_en : Nat)
  | wrChanCtrl (v : ChanCtrl)
  | wrTxFctrl (v : TxFctrl)
  | wrDxTime (v : Nat)
  | wrTxBuffer (bytes : List Nat)
  | wrSfdLength (v : Nat)
  | wrRfTxctrl (v : Nat)
  | wrTcPgdelay (v : Nat)
  | wrFsPllcfg (v : Nat)
  | wrFsPlltune (v : Nat)
  | wrLdeCfg2 (v : Nat)
  | wrLdeRepc (v : Nat)
  | wrDrxTune0b (v : Nat)
  | wrDrxTune1a (v : Nat)
  | wrDrxTune1b (v : Nat)
  | wrDrxTune2 (v : Nat)
  | wrDrxTune4h (v : Nat)
  | wrRfRxctrlh (v : Nat)
  | wrAckRespT (v : AckRespT)
  | wrPmscCtrl0 (v : PmscCtrl0)
  | wrAonCfg0 (v : AonCfg0)
  | wrAonCfg1 (v : AonCfg1)
  | wrAonCtrl (v : AonCtrl)
  | wrAonWcfg (v : AonWcfg)
  | wrSysMask (v : SysMask)
  | callConfigReceiving (double_buffered : Bool) (auto_rx_reenable : Bool)
      (cfg : RxConfig)
deriving DecidableEq, Repr

/-- Whether an action is a register write (an SPI transaction that changes
chip state). -/
def Action.isWrite : Action → Bool
  | .rdEvcHpw | .rdEvcTpw | .rdSysStatus | .rdEvcCtrl | .rdTxTime
  | .rdPanadr | .rdTxAntd | .rdOtp _ => false
  | .callConfigReceiving _ _ _ => false
  | _ => true

/-! ## Errors and outcomes -/

/-- The error variants of `error.rs` reachable from the embedded operations
(`Spi` stands for `Error::Spi(_)`, collapsing the transport payload). -/
inductive Error where
  | Spi
  | DelayedSendTooLate
  | DelayedSendPowerUpWarning
  | InvalidConfiguration
  | WrongTxContinuation
  | TxNotFinishedyet
deriving DecidableEq, Repr

/-- Failure channel of a register-level computation: a propagated driver
error, or a Rust `panic!` (divergence). -/
inductive Fail where
  | err (e : Error)
  | panicked
deriving DecidableEq, Repr

/-- Result of an operation that consumes the device and returns
`Result<DW1000<_, NEW>, Error>` in Rust: on failure only the error comes
back (the device is dropped), and the writer closure may panic. -/
inductive Outcome (α : Type) where
  | ok (a : α)
  | err (e : Error)
  | panicked
deriving DecidableEq, Repr

/-! ## Device handle and modes -/

/-- `Ready` mode payload (empty in the source). -/
structure Ready where
deriving DecidableEq, Repr

/-- `Sending` mode payload. -/
structure Sending where
  finished : Bool
  continuation : TxContinuation
  config : TxConfig
deriving DecidableEq, Repr

/-- `SingleBufferReceiving` mode payload. -/
structure SingleBufferReceiving where
  finished : Bool
  config : RxConfig
deriving DecidableEq, Repr

/-- `AutoDoubleBufferReceiving` mode payload. -/
structure AutoDoubleBufferReceiving where
  finished : Bool
  config : RxConfig
deriving DecidableEq, Repr

/-- `Sleeping` mode payload: the TX antenna delay preserved across sleep. -/
structure Sleeping where
  tx_antenna_delay : Nat
deriving DecidableEq, Repr

/-- The device handle `DW1000<SPI, State>`: the wrapping 8-bit frame
sequence counter and the mode payload.  The owned `ll` register capability
is the explicit `St` threaded alongside. -/
structure DW1000 (S : Type) where
  seq : Nat
  state : S
deriving DecidableEq, Repr

/-- Result of an operation that returns `Result<DW1000<_, NEW>, (Self,
Error)>` in Rust: on failure the device in its old mode comes back with the
error. -/
inductive TransitionOutcome (α : Type) where
  | ok (a : α)
  | err (d : DW1000 Sending) (e : Error)
  | panicked
deriving DecidableEq, Repr

/-- Monotonic hardware timestamp; `Instant::new_unchecked` wraps the raw
40-bit value read from hardware. -/
structure Instant where
  value : Nat
deriving DecidableEq, Repr

/-- `Instant::new_unchecked`: constructs without a range check (the caller
guarantees the value is in the 40-bit range). -/
def Instant.new_unchecked (value : Nat) : Instant := ⟨value⟩

/-- Non-blocking poll result mirroring `nb::Result` in `wait_transmit`. -/
inductive NbResult where
  | ok (t : Instant)
  | wouldBlock
  | err (e : Error)
  | panicked
deriving DecidableEq, Repr

/-- The time at which a transmission starts (`SendTime` in `ready.rs`). -/
inductive SendTime where
  | Now
  | Delayed (t : Instant)
  | OnSync
deriving DecidableEq, Repr

/-! ## The register-capability computation -/

/-- State threaded through every register operation: the register file, the
trace of operations performed so far, and the script of injected SPI
transport faults (each SPI transaction consumes one entry; an exhausted
script means no fault). -/
structure St where
  regs : Regs
  trace : List Action
  faults : List Bool
deriving DecidableEq, Repr

/-- A register-level computation: state in, result-or-failure and state
out. -/
def M (α : Type) : Type := St → Except Fail α × St

/-- Returns a value without touching the registers. -/
def M.pure {α : Type} (a : α) : M α := fun s => (.ok a, s)

/-- Sequencing with early exit on failure (Rust `?`). -/
def M.bind {α β : Type} (m : M α) (f : α → M β) : M β := fun s =>
  match m s with
  | (.ok a, s1) => f a s1
  | (.error e, s1) => (.error e, s1)

/-- Aborts with a driver error (a non-SPI `return Err(..)`). -/
def M.fail {α : Type} (e : Error) : M α := fun s => (.error (.err e), s)

/-- Aborts by panicking (Rust `panic!`). -/
def M.panic {α : Type} : M α := fun s => (.error .panicked, s)

/-- One register write (or read-modify-write): consumes a fault-script
entry; on success logs the action and applies the register update. -/
def M.step (act : Regs → Action) (upd : Regs → Regs) : M Unit := fun s =>
  match s.faults with
  | true :: rest => (.error (.err .Spi), { s with faults := rest })
  | false :: rest =>
      (.ok (), { regs := upd s.regs, trace := s.trace ++ [act s.regs],
                 faults := rest })
  | [] =>
      (.ok (), { regs := upd s.regs, trace := s.trace ++ [act s.regs],
                 faults := [] })

/-- One register read: consumes a fault-script entry; on success logs the
action and returns the selected value. -/
def M.read {α : Type} (act : Action) (get : Regs → α) : M α := fun s =>
  match s.faults with
  | true :: rest => (.error (.err .Spi), { s with faults := rest })
  | false :: rest =>
      (.ok (get s.regs), { s with trace := s.trace ++ [act], faults := rest })
  | [] => (.ok (get s.regs), { s with trace := s.trace ++ [act] })

/-- Logs an observation marker (not an SPI transaction). -/
def M.note (a : Action) : M Unit := fun s =>
  (.ok (), { s with trace := s.trace ++ [a] })

/-! ## Individual register operations -/

/-- `self.ll.evc_hpw().read()?.value()` -/
def evc_hpw_read : M Nat := M.read .rdEvcHpw (·.evc_hpw)

/-- `self.ll.evc_tpw().read()?.value()` -/
def evc_tpw_read : M Nat := M.read .rdEvcTpw (·.evc_tpw)

/-- `self.ll.sys_status().read()?` -/
def sys_status_read : M SysStatus := M.read .rdSysStatus (·.sys_status)

/-- `self.ll.sys_status().write(..)`: write-1-to-clear. -/
def sys_status_write (m : SysStatus) : M Unit :=
  M.step (fun _ => .wrSysStatus m)
    (fun r => { r with sys_status := r.sys_status.w1c m })

/-- `self.ll.tx_time().read()?.tx_stamp()` -/
def tx_time_read : M Nat := M.read .rdTxTime (·.tx_time)

/-- `self.ll.ec_ctrl().modify(..)` -/
def ec_ctrl_modify (f : EcCtrl → EcCtrl) : M Unit :=
  M.step (fun r => .wrEcCtrl (f r.ec_ctrl))
    (fun r => { r with ec_ctrl := f r.ec_ctrl })

/-- `self.ll.sys_ctrl().modify(..)` -/
def sys_ctrl_modify (f : SysCtrl → SysCtrl) : M Unit :=
  M.step (fun r => .wrSysCtrl (f r.sys_ctrl))
    (fun r => { r with sys_ctrl := f r.sys_ctrl })

/-- `self.ll.sys_ctrl().write(..)`: unwritten fields go to zero. -/
def sys_ctrl_write (v : SysCtrl) : M Unit :=
  M.step (fun _ => .wrSysCtrl v) (fun r => { r with sys_ctrl := v })

/-- `self.ll.sys_cfg().modify(..)` -/
def sys_cfg_modify (f : SysCfg → SysCfg) : M Unit :=
  M.step (fun r => .wrSysCfg (f r.sys_cfg))
    (fun r => { r with sys_cfg := f r.sys_cfg })

/-- `self.ll.chan_ctrl().modify(..)` -/
def chan_ctrl_modify (f : ChanCtrl → ChanCtrl) : M Unit :=
  M.step (fun r => .wrChanCtrl (f r.chan_ctrl))
    (fun r => { r with chan_ctrl := f r.chan_ctrl })

/-- `self.ll.tx_fctrl().modify(..)` -/
def tx_fctrl_modify (f : TxFctrl → TxFctrl) : M Unit :=
  M.step (fun r => .wrTxFctrl (f r.tx_fctrl))
    (fun r => { r with tx_fctrl := f r.tx_fctrl })

/-- `self.ll.evc_ctrl().write(|w| w.evc_clr(0b1))`: clearing the event
counters zeroes them; the command bit is self-clearing in hardware. -/
def evc_ctrl_write_clr : M Unit :=
  M.step (fun _ => .wrEvcCtrl 1 0)
    (fun r => { r with evc_hpw := 0, evc_tpw := 0 })

/-- `self.ll.evc_ctrl().write(|w| w.evc_en(0b1))`: the command bit is
self-clearing in hardware. -/
def evc_ctrl_write_en : M Unit :=
  M.step (fun _ => .wrEvcCtrl 0 1) (fun r => r)

/-- `self.ll.evc_ctrl().read()?`: both command bits read back 0 (they are
self-clearing), so the polling handshake loops in `send_raw` terminate
after this one read; the loop is modelled by its terminating read. -/
def evc_ctrl_read : M Nat := M.read .rdEvcCtrl (fun _ => 0)

/-- `self.ll.dx_time().write(..)` -/
def dx_time_write (v : Nat) : M Unit :=
  M.step (fun _ => .wrDxTime v) (fun r => { r with dx_time := v })

/-- `self.ll.tx_buffer().write(..)` running the writer closure: an encode
failure inside the closure is a `panic!` (see `send`). -/
def tx_buffer_write (writer : Except Unit (List Nat)) : M Unit :=
  match writer with
  | .error _ => M.panic
  | .ok bytes =>
      M.step (fun _ => .wrTxBuffer bytes)
        (fun r => { r with tx_buffer := bytes })

/-- `self.ll.sfd_length().write(..)` -/
def sfd_length_write (v : Nat) : M Unit :=
  M.step (fun _ => .wrSfdLength v) (fun r => { r with sfd_length := v })

/-- `self.ll.rf_txctrl().write(..)` -/
def rf_txctrl_write (v : Nat) : M Unit :=
  M.step (fun _ => .wrRfTxctrl v) (fun r => { r with rf_txctrl := v })

/-- `self.ll.tc_pgdelay().write(..)` -/
def tc_pgdelay_write (v : Nat) : M Unit :=
  M.step (fun _ => .wrTcPgdelay v) (fun r => { r with tc_pgdelay := v })

/-- `self.ll.fs_pllcfg().write(..)` -/
def fs_pllcfg_write (v : Nat) : M Unit :=
  M.step (fun _ => .wrFsPllcfg v) (fun r => { r with fs_pllcfg := v })

/-- `self.ll.fs_plltune().write(..)` -/
def fs_plltune_write (v : Nat) : M Unit :=
  M.step (fun _ => .wrFsPlltune v) (fun r => { r with fs_plltune := v })

/-- `self.ll.lde_cfg2().write(..)` (also used for the whole-value
`modify`). -/
def lde_cfg2_write (v : Nat) : M Unit :=
  M.step (fun _ => .wrLdeCfg2 v) (fun r => { r with lde_cfg2 := v })

/-- `self.ll.lde_repc().write(..)` -/
def lde_repc_write (v : Nat) : M Unit :=
  M.step (fun _ => .wrLdeRepc v) (fun r => { r with lde_repc := v })

/-- `self.ll.drx_tune0b().write(..)` -/
def drx_tune0b_write (v : Nat) : M Unit :=
  M.step (fun _ => .wrDrxTune0b v) (fun r => { r with drx_tune0b := v })

/-- `self.ll.drx_tune1a().write(..)` -/
def drx_tune1a_write (v : Nat) : M Unit :=
  M.step (fun _ => .wrDrxTune1a v) (fun r => { r with drx_tune1a := v })

/-- `self.ll.drx_tune1b().write(..)` -/
def drx_tune1b_write (v : Nat) : M Unit :=
  M.step (fun _ => .wrDrxTune1b v) (fun r => { r with drx_tune1b := v })

/-- `self.ll.drx_tune2().write(..)` -/
def drx_tune2_write (v : Nat) : M Unit :=
  M.step (fun _ => .wrDrxTune2 v) (fun r => { r with drx_tune2 := v })

/-- `self.ll.drx_tune4h().write(..)` -/
def drx_tune4h_write (v : Nat) : M Unit :=
  M.step (fun _ => .wrDrxTune4h v) (fun r => { r with drx_tune4h := v })

/-- `self.ll.rf_rxctrlh().write(..)` -/
def rf_rxctrlh_write (v : Nat) : M Unit :=
  M.step (fun _ => .wrRfRxctrlh v) (fun r => { r with rf_rxctrlh := v })

/-- `self.ll.ack_resp_t().modify(..)` -/
def ack_resp_t_modify (f : AckRespT → AckRespT) : M Unit :=
  M.step (fun r => .wrAckRespT (f r.ack_resp_t))
    (fun r => { r with ack_resp_t := f r.ack_resp_t })

/-- `self.ll.pmsc_ctrl0().modify(..)` -/
def pmsc_ctrl0_modify (f : PmscCtrl0 → PmscCtrl0) : M Unit :=
  M.step (fun r => .wrPmscCtrl0 (f r.pmsc_ctrl0))
    (fun r => { r with pmsc_ctrl0 := f r.pmsc_ctrl0 })

/-- `self.ll.aon_cfg0().write(..)`: unwritten fields go to zero. -/
def aon_cfg0_write (v : AonCfg0) : M Unit :=
  M.step (fun _ => .wrAonCfg0 v) (fun r => { r with aon_cfg0 := v })

/-- `self.ll.aon_cfg0().modify(..)` -/
def aon_cfg0_modify (f : AonCfg0 → AonCfg0) : M Unit :=
  M.step (fun r => .wrAonCfg0 (f r.aon_cfg0))
    (fun r => { r with aon_cfg0 := f r.aon_cfg0 })

/-- `self.ll.aon_cfg1().write(..)`: unwritten fields go to zero. -/
def aon_cfg1_write (v : AonCfg1) : M Unit :=
  M.step (fun _ => .wrAonCfg1 v) (fun r => { r with aon_cfg1 := v })

/-- `self.ll.aon_ctrl().write(..)`: unwritten fields go to zero. -/
def aon_ctrl_write (v : AonCtrl) : M Unit :=
  M.step (fun _ => .wrAonCtrl v) (fun r => { r with aon_ctrl := v })

/-- `self.ll.aon_wcfg().modify(..)` -/
def aon_wcfg_modify (f : AonWcfg → AonWcfg) : M Unit :=
  M.step (fun r => .wrAonWcfg (f r.aon_wcfg))
    (fun r => { r with aon_wcfg := f r.aon_wcfg })

/-- `self.ll.sys_mask().modify(..)` -/
def sys_mask_modify (f : SysMask → SysMask) : M Unit :=
  M.step (fun r => .wrSysMask (f r.sys_mask))
    (fun r => { r with sys_mask := f r.sys_mask })

/-- `self.get_address()?`: reads PANADR (the body lives outside the given
sources; the spec lists the address getter among the configuration
surface). -/
def get_address : M Panadr := M.read .rdPanadr (·.panadr)

/-- `self.get_tx_antenna_delay()?`: reads TX_ANTD.  Modelled from the spec:
the antenna-delay getter reads the chip's TX antenna delay register. -/
def get_tx_antenna_delay : M Nat := M.read .rdTxAntd (·.tx_antd)

/-- `self.read_otp(addr)?`.  Modelled from the spec: reads the one-time-
programmed calibration word at the given address. -/
def read_otp (addr : Nat) : M Nat :=
  M.read (.rdOtp addr) (fun r => otpLookup addr r.otp)

/-- `self.force_idle(false)?`.  Modelled from the spec: forces the
transceiver into IDLE mode by writing the transceiver-off command into
SYS_CTRL. -/
def force_idle : M Unit := sys_ctrl_write { trxoff := 1 }

/-- `rx_radio.start_receiving()?`.  Modelled from the spec: starts
listening by setting the receiver-enable command in SYS_CTRL. -/
def start_receiving : M Unit := sys_ctrl_modify (fun w => { w with rxenab := 1 })

/-! ## Sending-mode operations (`sending.rs`) -/

/-- `reset_flags` (`sending.rs`): one fixed-pattern SYS_STATUS write
clearing the four transmit-status flags TXFRB, TXPRS, TXPHS, TXFRS. -/
def reset_flags : M Unit :=
  sys_status_write { txfrb := 1, txprs := 1, txphs := 1, txfrs := 1 }

/-- Body of `wait_transmit` up to the SPI-error wrapper: checks EVC_HPW,
then EVC_TPW, then SYS_STATUS.TXFRS; on success clears the transmit flags,
latches `finished` and reads the TX timestamp. -/
def waitTransmitM (d : DW1000 Sending) : M (NbResult × DW1000 Sending) :=
  M.bind evc_hpw_read fun evc_hpw =>
  if evc_hpw ≠ 0 then M.pure (.err .DelayedSendTooLate, d) else
  M.bind evc_tpw_read fun evc_tpw =>
  if evc_tpw ≠ 0 then M.pure (.err .DelayedSendPowerUpWarning, d) else
  M.bind sys_status_read fun sys_status =>
  if sys_status.txfrs = 0 then M.pure (.wouldBlock, d) else
  M.bind reset_flags fun _ =>
  let d2 : DW1000 Sending := { d with state := { d.state with finished := true } }
  M.bind tx_time_read fun tx_timestamp =>
  M.pure (.ok (Instant.new_unchecked tx_timestamp), d2)

/-- `wait_transmit` (`sending.rs`): non-blocking poll; takes the device by
mutable borrow, so the (possibly updated) device always comes back. -/
def wait_transmit (d : DW1000 Sending) (s : St) :
    NbResult × DW1000 Sending × St :=
  match waitTransmitM d s with
  | (.ok (r, d2), s2) => (r, d2, s2)
  | (.error (.err e), s2) => (.err e, d, s2)
  | (.error .panicked, s2) => (.panicked, d, s2)

/-- `abort_sending` (`sending.rs`): if not yet finished, force idle and
clear the transmit flags; always clear the external-sync-wait bit; on any
SPI failure the device comes back with the error. -/
def abort_sending (d : DW1000 Sending) (s : St) :
    TransitionOutcome (DW1000 Ready) × St :=
  match (M.bind (if ¬d.state.finished then
                   M.bind force_idle fun _ => reset_flags
                 else M.pure ()) fun _ =>
         ec_ctrl_modify (fun w => { w with ostsm := 0 })) s with
  | (.ok _, s2) => (.ok ⟨d.seq, {}⟩, s2)
  | (.error (.err e), s2) => (.err d e, s2)
  | (.error .panicked, s2) => (.panicked, s2)

/-- `finish_sending` (`sending.rs`): rejects a non-`Ready` continuation
before any register operation, otherwise behaves as `abort_sending`. -/
def finish_sending (d : DW1000 Sending) (s : St) :
    TransitionOutcome (DW1000 Ready) × St :=
  if d.state.continuation ≠ TxContinuation.Ready then
    (.err d .WrongTxContinuation, s)
  else abort_sending d s

/-- `continue_receiving` (`sending.rs`): transitions `Sending` to
`SingleBufferReceiving` only when the continuation is the matching RX
continuation and the send is finished. -/
def continue_receiving (d : DW1000 Sending) (s : St) :
    TransitionOutcome (DW1000 SingleBufferReceiving) × St :=
  match d.state.continuation with
  | .Rx frame_filtering auto_ack =>
      if ¬d.state.finished then (.err d .TxNotFinishedyet, s)
      else
        match (M.bind reset_flags fun _ =>
               ec_ctrl_modify (fun w => { w with ostsm := 0 })) s with
        | (.ok _, s2) =>
            (.ok ⟨d.seq,
                  { finished := false,
                    config := RxConfig.from_tx_config d.state.config
                      frame_filtering auto_ack }⟩, s2)
        | (.error (.err e), s2) => (.err d e, s2)
        | (.error .panicked, s2) => (.panicked, s2)
  | _ => (.err d .WrongTxContinuation, s)

/-- `continue_receiving_double_buffered` (`sending.rs`): transitions
`Sending` to `AutoDoubleBufferReceiving` only when the continuation is the
matching RX-double-buffered continuation and the send is finished; also
resynchronizes the host-side receive-buffer pointer if needed. -/
def continue_receiving_double_buffered (d : DW1000 Sending) (s : St) :
    TransitionOutcome (DW1000 AutoDoubleBufferReceiving) × St :=
  match d.state.continuation with
  | .RxDoubleBuffered frame_filtering auto_ack =>
      if ¬d.state.finished then (.err d .TxNotFinishedyet, s)
      else
        match (M.bind sys_status_read fun status =>
               M.bind (if status.hsrbp ≠ status.icrbp then
                         sys_ctrl_modify (fun w => { w with hrbpt := 1 })
                       else M.pure ()) fun _ =>
               M.bind reset_flags fun _ =>
               ec_ctrl_modify (fun w => { w with ostsm := 0 })) s with
        | (.ok _, s2) =>
            (.ok ⟨d.seq,
                  { finished := false,
                    config := RxConfig.from_tx_config d.state.config
                      frame_filtering auto_ack }⟩, s2)
        | (.error (.err e), s2) => (.err d e, s2)
        | (.error .panicked, s2) => (.panicked, s2)
  | _ => (.err d .WrongTxContinuation, s)

/-! ## Ready-mode operations (`ready.rs`) -/

/-- `next_seq` (`ready.rs`): returns the current sequence number and
advances the wrapping 8-bit counter. -/
def next_seq (d : DW1000 Ready) : Nat × DW1000 Ready :=
  (d.seq, { d with seq := (d.seq + 1) % 256 })

/-- `config_receiving` (`ready.rs`), parameterized by the buffering
discipline's two capability constants (`RECEIVING::DOUBLE_BUFFERED`,
`RECEIVING::AUTO_RX_REENABLE`; single-buffer is `false`/`false`,
auto-double-buffer is `true`/`true`, modelled from the spec since
`receiving.rs` is not among the given sources).  The entry marker records
the `RxConfig` this invocation received. -/
def config_receiving (double_buffered auto_rx_reenable : Bool)
    (tuning : Tuning) (config : RxConfig) : M Unit :=
  M.bind (M.note (.callConfigReceiving double_buffered auto_rx_reenable config))
    fun _ =>
  M.bind (pmsc_ctrl0_modify (fun w => { w with softreset := 14 })) fun _ =>
  M.bind (pmsc_ctrl0_modify (fun w => { w with softreset := 15 })) fun _ =>
  M.bind force_idle fun _ =>
  M.bind (sys_cfg_modify (fun w =>
    { w with ffen := b2n config.frame_filtering, ffab := 1, ffad := 1,
             ffaa := 1, ffam := 1,
             dis_drxb := b2n (!double_buffered),
             rxautr := b2n auto_rx_reenable,
             rxm110k := b2n (config.bitrate == BitRate.Kbps110) })) fun _ =>
  M.bind (ec_ctrl_modify (fun w => { w with pllldt := 1 })) fun _ =>
  M.bind (sys_status_write { cplock := 1, clkpll_ll := 1 }) fun _ =>
  M.bind (chan_ctrl_modify (fun w =>
    { w with tx_chan := config.channel, rx_chan := config.channel,
             dwsfd := b2n (config.sfd_sequence == SfdSequence.Decawave
               || config.sfd_sequence == SfdSequence.DecawaveAlt),
             rxprf := config.pulse_repetition_frequency.toNat,
             tnssfd := b2n (config.sfd_sequence == SfdSequence.User
               || config.sfd_sequence == SfdSequence.DecawaveAlt),
             rnssfd := b2n (config.sfd_sequence == SfdSequence.User
               || config.sfd_sequence == SfdSequence.DecawaveAlt),
             tx_pcode := tuning.preamble_code config.channel
               config.pulse_repetition_frequency,
             rx_pcode := tuning.preamble_code config.channel
               config.pulse_repetition_frequency })) fun _ =>
  M.bind (match config.sfd_sequence with
          | .IEEE => M.pure ()
          | .Decawave => sfd_length_write 8
          | .DecawaveAlt => sfd_length_write 16
          | .User => M.pure ()) fun _ =>
  M.bind (drx_tune0b_write
    (tuning.drx_tune0b config.bitrate config.sfd_sequence)) fun _ =>
  M.bind (drx_tune1a_write
    (tuning.drx_tune1a config.pulse_repetition_frequency)) fun _ =>
  M.bind (match tuning.drx_tune1b config.expected_preamble_length
                  config.bitrate with
          | some v => M.pure v
          | none => M.fail .InvalidConfiguration) fun drx_tune1b =>
  M.bind (drx_tune1b_write drx_tune1b) fun _ =>
  M.bind (match tuning.drx_tune2 config.pulse_repetition_frequency
                  (tuning.pac_size config.expected_preamble_length) with
          | some v => M.pure v
          | none => M.fail .InvalidConfiguration) fun drx_tune2 =>
  M.bind (drx_tune2_write drx_tune2) fun _ =>
  M.bind (drx_tune4h_write
    (tuning.drx_tune4h config.expected_preamble_length)) fun _ =>
  M.bind (rf_rxctrlh_write (tuning.rf_rxctrlh config.channel)) fun _ =>
  M.bind (fs_pllcfg_write (tuning.fs_pllcfg config.channel)) fun _ =>
  M.bind (fs_plltune_write (tuning.fs_plltune config.channel)) fun _ =>
  M.bind (lde_cfg2_write
    (tuning.lde_cfg2 config.pulse_repetition_frequency)) fun _ =>
  M.bind (lde_repc_write (tuning.lde_repc config.channel
    config.pulse_repetition_frequency config.bitrate)) fun _ =>
  M.bind sys_status_read fun status =>
  M.bind (if status.hsrbp ≠ status.icrbp then
            sys_ctrl_modify (fun w => { w with hrbpt := 1 })
          else M.pure ()) fun _ =>
  match config.auto_ack with
  | .Enabled turnaround_time =>
      M.bind (sys_cfg_modify (fun w => { w with autoack := 1 })) fun _ =>
      M.bind (ack_resp_t_modify (fun w =>
        { w with ack_tim := turnaround_time })) fun _ =>
      sys_ctrl_modify (fun w => { w with txstrt := 1, trxoff := 1 })
  | .Disabled => M.pure ()

/-- The continuation-specific preparation of `send_raw`: for ready-only,
clear and re-enable the hardware event counters (each self-clearing strobe
observed via the polling-handshake read) and force idle; for RX
continuations, run the receive configuration on the `RxConfig` derived from
the `TxConfig`. -/
def sendRawPrep (tuning : Tuning) (config : TxConfig) : M Unit :=
  match config.continuation with
  | .Ready =>
      M.bind evc_ctrl_write_clr fun _ =>
      M.bind evc_ctrl_read fun _ =>
      M.bind evc_ctrl_write_en fun _ =>
      M.bind evc_ctrl_read fun _ =>
      force_idle
  | .Rx frame_filtering auto_ack =>
      config_receiving false false tuning
        (RxConfig.from_tx_config config frame_filtering auto_ack)
  | .RxDoubleBuffered frame_filtering auto_ack =>
      config_receiving true true tuning
        (RxConfig.from_tx_config config frame_filtering auto_ack)

/-- The send-time-specific programming of `send_raw`: the delay register
for a delayed send, the sync-wait bits for an externally synchronized
send. -/
def sendRawDelay (send_time : SendTime) : M Unit :=
  match send_time with
  | .Delayed time => dx_time_write time.value
  | .OnSync => ec_ctrl_modify (fun w => { w with wait := 33, ostsm := 1 })
  | .Now => M.pure ()

/-- The register fan-out of `send_raw` after the payload write:
frame-control (with the written length plus the two CRC octets),
channel/SFD, SFD length, RF/PLL tuning, LDE tuning, the wait-for-response
timer, and the transmit-start strobe. -/
def sendRawTail (tuning : Tuning) (send_time : SendTime) (config : TxConfig)
    (len : Nat) : M Unit :=
  M.bind (tx_fctrl_modify (fun w =>
    { w with tflen := (len % 256 + 2) % 256,
             tfle := 0, txboffs := 0,
             txbr := config.bitrate.toNat,
             tr := b2n config.ranging_enable,
             txprf := config.pulse_repetition_frequency.toNat,
             txpsr := (config.preamble_length % 256 &&& 12) / 4,
             pe := config.preamble_length % 256 &&& 3 })) fun _ =>
  M.bind (chan_ctrl_modify (fun w =>
    { w with tx_chan := config.channel, rx_chan := config.channel,
             dwsfd := b2n (config.sfd_sequence == SfdSequence.Decawave
               || config.sfd_sequence == SfdSequence.DecawaveAlt),
             rxprf := config.pulse_repetition_frequency.toNat,
             tnssfd := b2n (config.sfd_sequence == SfdSequence.User
               || config.sfd_sequence == SfdSequence.DecawaveAlt),
             rnssfd := b2n (config.sfd_sequence == SfdSequence.User
               || config.sfd_sequence == SfdSequence.DecawaveAlt),
             tx_pcode := tuning.preamble_code config.channel
               config.pulse_repetition_frequency,
             rx_pcode := tuning.preamble_code config.channel
               config.pulse_repetition_frequency })) fun _ =>
  M.bind (match config.sfd_sequence with
    | .IEEE => M.pure ()
    | .Decawave => sfd_length_write 8
    | .DecawaveAlt => sfd_length_write 16
    | .User => M.pure ()) fun _ =>
  M.bind (rf_txctrl_write (tuning.rf_txctrl config.channel)) fun _ =>
  M.bind (tc_pgdelay_write (tuning.tc_pgdelay config.channel)) fun _ =>
  M.bind (fs_pllcfg_write (tuning.fs_pllcfg config.channel)) fun _ =>
  M.bind (fs_plltune_write (tuning.fs_plltune config.channel)) fun _ =>
  M.bind (lde_cfg2_write
    (tuning.lde_cfg2 config.pulse_repetition_frequency)) fun _ =>
  M.bind (lde_repc_write (tuning.lde_repc config.channel
    config.pulse_repetition_frequency config.bitrate)) fun _ =>
  M.bind (ack_resp_t_modify (fun w => { w with w4r_tim := 0 })) fun _ =>
  sys_ctrl_modify (fun w =>
    let w := { w with sfcst := b2n (!config.append_crc) }
    match send_time with
    | .OnSync => w
    | .Delayed _ =>
        { w with txdlys := 1, txstrt := 1,
                 wait4resp :=
                   b2n (!(config.continuation == TxContinuation.Ready)) }
    | .Now =>
        { w with txstrt := 1,
                 wait4resp :=
                   b2n (!(config.continuation == TxContinuation.Ready)) })

/-- Body of `send_raw`: continuation-specific preparation, optional delay
or sync-wait programming, payload write via the writer closure, then the
fan-out and the transmit start. -/
def sendRawM (tuning : Tuning) (writer : Except Unit (List Nat))
    (send_time : SendTime) (config : TxConfig) : M Unit :=
  M.bind (sendRawPrep tuning config) fun _ =>
  M.bind (sendRawDelay send_time) fun _ =>
  M.bind (tx_buffer_write writer) fun _ =>
  sendRawTail tuning send_time config (writer.toOption.getD []).length

/-- `send_raw` (`ready.rs`): consumes the device; on failure only the error
is returned (the Rust signature is `Result<DW1000<SPI, Sending>,
Error<SPI>>`).  The writer closure is abstracted by its outcome: the bytes
it writes, or the marker that it diverges. -/
def send_raw (tuning : Tuning) (d : DW1000 Ready)
    (writer : Except Unit (List Nat)) (send_time : SendTime)
    (config : TxConfig) (s : St) : Outcome (DW1000 Sending) × St :=
  match sendRawM tuning writer send_time config s with
  | (.ok _, s2) =>
      (.ok ⟨d.seq, { finished := false, continuation := config.continuation,
                     config := config }⟩, s2)
  | (.error (.err e), s2) => (.err e, s2)
  | (.error .panicked, s2) => (.panicked, s2)

/-- The logical MAC frame built by `send` (constant header fields of the
source are omitted; the fields kept are the ones the claims observe). -/
structure Frame where
  seq : Nat
  destination : Option (Nat × Nat)
  source : Option (Nat × Nat)
  payload : List Nat
deriving DecidableEq, Repr

/-- The frame `send` constructs: data frame to `destination` from the
device's own address, carrying the pre-increment sequence number. -/
def buildFrame (seq : Nat) (destination source : Option (Nat × Nat))
    (payload : List Nat) : Frame :=
  { seq := seq, destination := destination, source := source,
    payload := payload }

/-- Modelled from the spec: little-endian bytes of an optional (PAN id,
short address) pair, part of the external frame codec. -/
def addressBytes : Option (Nat × Nat) → List Nat
  | none => []
  | some (pan, addr) =>
      [pan % 256, pan / 256 % 256, addr % 256, addr / 256 % 256]

/-- Modelled from the spec: the external frame codec's encoding — frame
control, sequence number, addressing fields, then the payload. -/
def serializeFrame (f : Frame) : List Nat :=
  [65, 136, f.seq % 256] ++ addressBytes f.destination
    ++ addressBytes f.source ++ f.payload

/-- Capacity of the TX buffer handed to the writer closure (the standard
frame buffer is 127 bytes). -/
def TX_BUFFER_LEN : Nat := 127

/-- Modelled from the spec: the external frame codec's encode step —
serializes the frame, failing when the buffer is too small. -/
def encodeFrame (f : Frame) (cap : Nat) : Except Unit (List Nat) :=
  let bytes := serializeFrame f
  if bytes.length ≤ cap then .ok bytes else .error ()

/-- Maps a register-computation failure to a device-consuming outcome. -/
def failToOutcome {α : Type} : Fail → Outcome α
  | .err e => .err e
  | .panicked => .panicked

/-- `send` (`ready.rs`): takes the next sequence number, reads the device's
own address, builds the data frame, and hands `send_raw` a writer that
serializes it — and panics if serialization fails.  The encode outcome is
computed here and consumed by `send_raw` at the TX-buffer write, where the
closure actually runs. -/
def send (tuning : Tuning) (d : DW1000 Ready) (data : List Nat)
    (destination : Option (Nat × Nat)) (send_time : SendTime)
    (config : TxConfig) (s : St) : Outcome (DW1000 Sending) × St :=
  match next_seq d with
  | (seq, d2) =>
    match get_address s with
    | (.error f, s2) => (failToOutcome f, s2)
    | (.ok addr, s2) =>
        let frame := buildFrame seq destination
          (some (addr.pan_id, addr.short_addr)) data
        send_raw tuning d2 (encodeFrame frame TX_BUFFER_LEN) send_time
          config s2

/-- `receive` (`ready.rs`): configures single-buffer reception and starts
listening; consumes the device, returning only the error on failure. -/
def receive (tuning : Tuning) (d : DW1000 Ready) (config : RxConfig)
    (s : St) : Outcome (DW1000 SingleBufferReceiving) × St :=
  match (M.bind (config_receiving false false tuning config) fun _ =>
         start_receiving) s with
  | (.ok _, s2) => (.ok ⟨d.seq, { finished := false, config := config }⟩, s2)
  | (.error (.err e), s2) => (.err e, s2)
  | (.error .panicked, s2) => (.panicked, s2)

/-- `receive_auto_double_buffered` (`ready.rs`): configures double-buffered
auto-re-enabled reception and starts listening. -/
def receive_auto_double_buffered (tuning : Tuning) (d : DW1000 Ready)
    (config : RxConfig) (s : St) :
    Outcome (DW1000 AutoDoubleBufferReceiving) × St :=
  match (M.bind (config_receiving true true tuning config) fun _ =>
         start_receiving) s with
  | (.ok _, s2) => (.ok ⟨d.seq, { finished := false, config := config }⟩, s2)
  | (.error (.err e), s2) => (.err e, s2)
  | (.error .panicked, s2) => (.panicked, s2)

/-- Body of `enter_sleep`: the optional sleep-counter programming block,
then antenna-delay read, optional wake IRQ mask, OTP-calibrated regulator
flag, AON write configuration, wake sources, and the upload-then-save that
triggers sleep; returns the preserved antenna delay. -/
def enterSleepM (irq_on_wakeup : Bool) (sleep_duration : Option Nat) :
    M Nat :=
  M.bind (match sleep_duration with
    | some sd =>
        M.bind (pmsc_ctrl0_modify (fun w => { w with sysclks := 1 })) fun _ =>
        M.bind (aon_cfg1_write { sleep_cen := 0, smxx := 0, lposc_cal := 0 })
          fun _ =>
        M.bind (aon_cfg0_write { sleep_tim := sd }) fun _ =>
        M.bind (aon_cfg1_write { sleep_cen := 1, lposc_cal := 1 }) fun _ =>
        M.bind (aon_ctrl_write { upl_cfg := 1 }) fun _ =>
        M.bind (aon_ctrl_write { upl_cfg := 0 }) fun _ =>
        pmsc_ctrl0_modify (fun w => { w with sysclks := 0 })
    | none => M.pure ()) fun _ =>
  M.bind get_tx_antenna_delay fun tx_antenna_delay =>
  M.bind (if irq_on_wakeup then
            sys_mask_modify (fun w => { w with mslp2init := 1, mcplock := 1 })
          else M.pure ()) fun _ =>
  M.bind (read_otp 4) fun ldotune_low =>
  M.bind (aon_wcfg_modify (fun w =>
    { w with onw_ldc := 1, onw_llde := 1,
             onw_lldo := b2n (!(ldotune_low == 0)), onw_l64p := 1 })) fun _ =>
  M.bind (aon_cfg0_modify (fun w =>
    { w with wake_spi := 1, wake_cnt := b2n sleep_duration.isSome,
             sleep_en := 1 })) fun _ =>
  M.bind (aon_ctrl_write {}) fun _ =>
  M.bind (aon_ctrl_write { save := 1 }) fun _ =>
  M.pure tx_antenna_delay

/-- `enter_sleep` (`ready.rs`): consumes the device; on success returns the
`Sleeping` payload carrying the preserved TX antenna delay. -/
def enter_sleep (d : DW1000 Ready) (irq_on_wakeup : Bool)
    (sleep_duration : Option Nat) (s : St) :
    Outcome (DW1000 Sleeping) × St :=
  match enterSleepM irq_on_wakeup sleep_duration s with
  | (.ok tx_antenna_delay, s2) =>
      (.ok ⟨d.seq, { tx_antenna_delay := tx_antenna_delay }⟩, s2)
  | (.error (.err e), s2) => (.err e, s2)
  | (.error .panicked, s2) => (.panicked, s2)

/-! ## Trace observations and concrete instances -/

/-- Observation: the `RxConfig` arguments passed to `config_receiving`. -/
def markerObs : Action → Option RxConfig
  | .callConfigReceiving _ _ cfg => some cfg
  | _ => none

/-- All `RxConfig`s that invocations of `config_receiving` in a trace
received. -/
def rxConfigsUsed (tr : List Action) : List RxConfig := tr.filterMap markerObs

/-- Observation: the byte vectors written into the TX buffer. -/
def bufObs : Action → Option (List Nat)
  | .wrTxBuffer bytes => some bytes
  | _ => none

/-- All TX-buffer payloads written in a trace. -/
def txBufferWrites (tr : List Action) : List (List Nat) := tr.filterMap bufObs

/-- The register writes in a trace. -/
def writesOf (tr : List Action) : List Action := tr.filter Action.isWrite

/-- Whether an action is the sleep-counter-enable write of `enter_sleep`
(AON_CFG1 with `sleep_cen = 1`). -/
def isSleepCounterEnable : Action → Bool
  | .wrAonCfg1 v => v.sleep_cen == 1
  | _ => false

/-- Whether an action is the AON upload-configuration strobe of
`enter_sleep` (AON_CTRL with `upl_cfg = 1`). -/
def isAonUpload : Action → Bool
  | .wrAonCtrl v => v.upl_cfg == 1
  | _ => false

/-- The register operations performed by the sleep-timer block of
`enter_sleep` when a wake duration is given, in program order, starting
from register file `r`. -/
def enterSleepTimerTrace (sd : Nat) (r : Regs) : List Action :=
  [.wrPmscCtrl0 { r.pmsc_ctrl0 with sysclks := 1 },
   .wrAonCfg1 { sleep_cen := 0, smxx := 0, lposc_cal := 0 },
   .wrAonCfg0 { sleep_tim := sd },
   .wrAonCfg1 { sleep_cen := 1, lposc_cal := 1 },
   .wrAonCtrl { upl_cfg := 1 },
   .wrAonCtrl { upl_cfg := 0 },
   .wrPmscCtrl0 { r.pmsc_ctrl0 with sysclks := 0 }]

/-- The whole register-operation sequence of `enter_sleep` with a wake
duration, in program order, starting from register file `r`. -/
def enterSleepTrace (irq : Bool) (sd : Nat) (r : Regs) : List Action :=
  enterSleepTimerTrace sd r
  ++ [.rdTxAntd]
  ++ (if irq then
        [.wrSysMask { r.sys_mask with mslp2init := 1, mcplock := 1 }]
      else [])
  ++ [.rdOtp 4,
      .wrAonWcfg { r.aon_wcfg with
                     onw_ldc := 1, onw_llde := 1,
                     onw_lldo := b2n (!(otpLookup 4 r.otp == 0)),
                     onw_l64p := 1 },
      .wrAonCfg0 { sleep_tim := sd, wake_spi := 1, wake_cnt := 1,
                   sleep_en := 1 },
      .wrAonCtrl {},
      .wrAonCtrl { save := 1 }]

/-- The register operations `config_receiving` performs before it evaluates
the fallible `drx_tune1b` derivation, in program order, starting from
register file `r`. -/
def configReceivingPrefix (db ar : Bool) (t : Tuning) (c : RxConfig)
    (r : Regs) : List Action :=
  [.callConfigReceiving db ar c,
   .wrPmscCtrl0 { r.pmsc_ctrl0 with softreset := 14 },
   .wrPmscCtrl0 { r.pmsc_ctrl0 with softreset := 15 },
   .wrSysCtrl { trxoff := 1 },
   .wrSysCfg { r.sys_cfg with
                 ffen := b2n c.frame_filtering, ffab := 1,
                 ffad := 1, ffaa := 1, ffam := 1, dis_drxb := b2n (!db),
                 rxautr := b2n ar,
                 rxm110k := b2n (c.bitrate == BitRate.Kbps110) },
   .wrEcCtrl { r.ec_ctrl with pllldt := 1 },
   .wrSysStatus { cplock := 1, clkpll_ll := 1 },
   .wrChanCtrl { r.chan_ctrl with
                   tx_chan := c.channel, rx_chan := c.channel,
                   dwsfd := b2n (c.sfd_sequence == SfdSequence.Decawave
                     || c.sfd_sequence == SfdSequence.DecawaveAlt),
                   rxprf := c.pulse_repetition_frequency.toNat,
                   tnssfd := b2n (c.sfd_sequence == SfdSequence.User
                     || c.sfd_sequence == SfdSequence.DecawaveAlt),
                   rnssfd := b2n (c.sfd_sequence == SfdSequence.User
                     || c.sfd_sequence == SfdSequence.DecawaveAlt),
                   tx_pcode := t.preamble_code c.channel
                     c.pulse_repetition_frequency,
                   rx_pcode := t.preamble_code c.channel
                     c.pulse_repetition_frequency }]
  ++ (match c.sfd_sequence with
      | .IEEE => []
      | .Decawave => [.wrSfdLength 8]
      | .DecawaveAlt => [.wrSfdLength 16]
      | .User => [])
  ++ [.wrDrxTune0b (t.drx_tune0b c.bitrate c.sfd_sequence),
      .wrDrxTune1a (t.drx_tune1a c.pulse_repetition_frequency)]

/-- A concrete tuning table for witnesses (the values are arbitrary; both
fallible derivations succeed). -/
def tuning0 : Tuning where
  preamble_code := fun _ _ => 4
  rf_txctrl := fun _ => 101
  tc_pgdelay := fun _ => 102
  fs_pllcfg := fun _ => 103
  fs_plltune := fun _ => 104
  lde_cfg2 := fun _ => 105
  lde_repc := fun _ _ _ => 106
  drx_tune0b := fun _ _ => 107
  drx_tune1a := fun _ => 108
  drx_tune1b := fun _ _ => some 109
  pac_size := fun _ => 8
  drx_tune2 := fun _ _ => some 110
  drx_tune4h := fun _ => 111
  rf_rxctrlh := fun _ => 112

/-- A tuning table on which the `drx_tune1b` derivation fails for every
preamble-length/bitrate combination. -/
def tuningBad : Tuning := { tuning0 with drx_tune1b := fun _ _ => none }

/-- The all-zero initial register file and empty trace, fault-free. -/
def st0 : St := { regs := {}, trace := [], faults := [] }

/-- A concrete `TxConfig` with ready-only continuation. -/
def txCfgReady : TxConfig where
  channel := 5
  bitrate := .Kbps850
  pulse_repetition_frequency := .Mhz64
  preamble_length := 1
  sfd_sequence := .IEEE
  ranging_enable := false
  append_crc := true
  continuation := .Ready

/-- A concrete `TxConfig` with single-buffer RX continuation. -/
def txCfgRx : TxConfig :=
  { txCfgReady with continuation := .Rx false .Disabled }

/-- A concrete `RxConfig`. -/
def rxCfg0 : RxConfig where
  channel := 5
  bitrate := .Kbps850
  pulse_repetition_frequency := .Mhz64
  expected_preamble_length := 1
  sfd_sequence := .IEEE
  frame_filtering := false
  auto_ack := .Disabled

/-- A concrete `Ready`-mode device. -/
def dReady0 : DW1000 Ready := ⟨0, {}⟩

/-- A concrete `Sending`-mode device with RX continuation, not finished. -/
def dSendRx : DW1000 Sending :=
  ⟨7, { finished := false, continuation := .Rx false .Disabled,
        config := txCfgRx }⟩

/-- A concrete `Sending`-mode device with ready continuation, not
finished. -/
def dSendReady : DW1000 Sending :=
  ⟨7, { finished := false, continuation := .Ready, config := txCfgReady }⟩

/-- Generic trace observation: the values an action-observer extracts from
a trace. -/
def obsOf {β : Type} (obs : Action → Option β) (tr : List Action) : List β :=
  tr.filterMap obs

/-- A computation preserves an observation when no run adds an observed
action to the trace. -/
def PreservesObs {α β : Type} (obs : Action → Option β) (m : M α) : Prop :=
  ∀ s : St, obsOf obs ((m s).2.trace) = obsOf obs s.trace

/-- A computation appends exactly `L` to an observation on every run. -/
def AppendsObs {α β : Type} (obs : Action → Option β) (m : M α)
    (L : List β) : Prop :=
  ∀ s : St, obsOf obs ((m s).2.trace) = obsOf obs s.trace ++ L

/-- A concrete `Sending`-mode device with RX continuation, finished. -/
def dSendRxFin : DW1000 Sending :=
  ⟨7, { finished := true, continuation := .Rx false .Disabled,
        config := txCfgRx }⟩

/-- A concrete `Sending`-mode device with double-buffered RX continuation,
finished. -/
def dSendRxDbFin : DW1000 Sending :=
  ⟨7, { finished := true, continuation := .RxDoubleBuffered true .Disabled,
        config := { txCfgReady with
                      continuation := .RxDoubleBuffered true .Disabled } }⟩

/-- A concrete fault-free state in which a transmission has completed:
TXFRS is set and TX_TIME holds 42. -/
def stTx : St :=
  { regs := { tx_time := 42, sys_status := { txfrs := 1 } }, trace := [],
    faults := [] }

/-- A concrete state whose first SPI transaction fails. -/
def stFault1 : St := { regs := {}, trace := [], faults := [true] }

/-! ## Theorems -/

theorem preservesObs_step {β : Type} (obs : Action → Option β)
    (act : Regs → Action) (upd : Regs → Regs)
    (h : ∀ r, obs (act r) = none) : PreservesObs obs (M.step act upd) := by
  intro s
  rcases s with ⟨r, tr, fs⟩
  rcases fs with _ | ⟨b, bs⟩
  · simp [M.step, obsOf, List.filterMap_append, h]
  · cases b <;> simp [M.step, obsOf, List.filterMap_append, h]

theorem preservesObs_read {α β : Type} (obs : Action → Option β)
    (a : Action) (get : Regs → α) (h : obs a = none) :
    PreservesObs obs (M.read a get) := by
  intro s
  rcases s with ⟨r, tr, fs⟩
  rcases fs with _ | ⟨b, bs⟩
  · simp [M.read, obsOf, List.filterMap_append, h]
  · cases b <;> simp [M.read, obsOf, List.filterMap_append, h]

theorem preservesObs_pure {α β : Type} (obs : Action → Option β) (a : α) :
    PreservesObs obs (M.pure a) := fun _ => rfl

theorem preservesObs_fail {α β : Type} (obs : Action → Option β)
    (e : Error) : PreservesObs obs (M.fail e : M α) := fun _ => rfl

theorem preservesObs_panic {α β : Type} (obs : Action → Option β) :
    PreservesObs obs (M.panic : M α) := fun _ => rfl

theorem preservesObs_note {β : Type} (obs : Action → Option β) (a : Action)
    (h : obs a = none) : PreservesObs obs (M.note a) := by
  intro s
  simp [M.note, obsOf, List.filterMap_append, h]

theorem preservesObs_bind {α γ β : Type} {obs : Action → Option β}
    {m : M α} {f : α → M γ} (hm : PreservesObs obs m)
    (hf : ∀ a, PreservesObs obs (f a)) : PreservesObs obs (M.bind m f) := by
  intro s
  have h1 := hm s
  unfold M.bind
  rcases hms : m s with ⟨res, s1⟩
  rw [hms] at h1
  cases res with
  | ok a =>
      have h2 := hf a s1
      simp only at h1 ⊢
      rw [h2, h1]
  | error e => simpa using h1

theorem appendsObs_bind {α γ β : Type} {obs : Action → Option β}
    {m : M α} {f : α → M γ} {L : List β} (hm : AppendsObs obs m L)
    (hf : ∀ a, PreservesObs obs (f a)) : AppendsObs obs (M.bind m f) L := by
  intro s
  have h1 := hm s
  unfold M.bind
  rcases hms : m s with ⟨res, s1⟩
  rw [hms] at h1
  cases res with
  | ok a =>
      have h2 := hf a s1
      simp only at h1 ⊢
      rw [h2, h1]
  | error e => simpa using h1

theorem preservesObs_tx_buffer_write {β : Type} (obs : Action → Option β)
    (w : Except Unit (List Nat)) (h : ∀ b, obs (.wrTxBuffer b) = none) :
    PreservesObs obs (tx_buffer_write w) := by
  cases w with
  | error u => exact preservesObs_panic obs
  | ok b => exact preservesObs_step obs _ _ (fun _ => h b)

theorem M.bind_ok {α γ : Type} {m : M α} {f : α → M γ} {s : St} {r : γ}
    {s2 : St} (h : M.bind m f s = (.ok r, s2)) :
    ∃ a s1, m s = (.ok a, s1) ∧ f a s1 = (.ok r, s2) := by
  unfold M.bind at h
  rcases hms : m s with ⟨res, s1⟩
  rw [hms] at h
  cases res with
  | ok a => exact ⟨a, s1, rfl, h⟩
  | error e => simp at h

theorem config_receiving_bufObs (db ar : Bool) (t : Tuning) (c : RxConfig) :
    PreservesObs bufObs (config_receiving db ar t c) := by
  unfold config_receiving
  repeat
    first
    | exact preservesObs_note _ _ rfl
    | exact preservesObs_step _ _ _ (fun r => rfl)
    | exact preservesObs_read _ _ _ rfl
    | exact preservesObs_pure _ _
    | exact preservesObs_fail _ _
    | refine preservesObs_bind ?_ (fun a => ?_)
    | split

theorem config_receiving_markers (db ar : Bool) (t : Tuning) (c : RxConfig) :
    AppendsObs markerObs (config_receiving db ar t c) [c] := by
  unfold config_receiving
  refine appendsObs_bind ?_ (fun a => ?_)
  · intro s
    simp [M.note, obsOf, markerObs, List.filterMap_append]
  · repeat
      first
      | exact preservesObs_step _ _ _ (fun r => rfl)
      | exact preservesObs_read _ _ _ rfl
      | exact preservesObs_pure _ _
      | exact preservesObs_fail _ _
      | refine preservesObs_bind ?_ (fun a => ?_)
      | split

/-- C4: for every `Sending`-mode device whose configured continuation is an
RX continuation (not ready-only), `finish_sending` returns the original
device unchanged together with `WrongTxContinuation` and leaves the
register state and trace untouched (no register operations at all). -/
theorem finish_sending_rx_continuation_rejected (d : DW1000 Sending)
    (s : St) (h : d.state.continuation ≠ TxContinuation.Ready) :
    finish_sending d s = (.err d .WrongTxContinuation, s) := by
  unfold finish_sending
  rw [if_pos h]

/-- Witness for C4 at a concrete device with single-buffer RX
continuation. -/
theorem finish_sending_rx_continuation_rejected_witness :
    finish_sending dSendRx st0 = (.err dSendRx .WrongTxContinuation, st0) :=
  finish_sending_rx_continuation_rejected dSendRx st0 (by decide)

/-- C3: `continue_receiving` (resp. `continue_receiving_double_buffered`)
transitions to single-buffer (resp. auto-double-buffer) receiving only when
the continuation matches and the send is finished; a non-matching
continuation returns the unchanged device with `WrongTxContinuation`, a
matching continuation with an unfinished send returns the unchanged device
with `TxNotFinishedyet`, and in both failure cases the state (registers and
trace) is untouched. -/
theorem continue_receiving_guarded_transitions (d : DW1000 Sending)
    (s : St) :
    (∀ ff aa, d.state.continuation = .Rx ff aa → d.state.finished = false →
      continue_receiving d s = (.err d .TxNotFinishedyet, s))
  ∧ ((∀ ff aa, d.state.continuation ≠ .Rx ff aa) →
      continue_receiving d s = (.err d .WrongTxContinuation, s))
  ∧ (∀ ff aa, d.state.continuation = .Rx ff aa → d.state.finished = true →
      s.faults = [] →
      (continue_receiving d s).1 =
        .ok ⟨d.seq, ⟨false, RxConfig.from_tx_config d.state.config ff aa⟩⟩)
  ∧ (∀ ff aa, d.state.continuation = .RxDoubleBuffered ff aa →
      d.state.finished = false →
      continue_receiving_double_buffered d s = (.err d .TxNotFinishedyet, s))
  ∧ ((∀ ff aa, d.state.continuation ≠ .RxDoubleBuffered ff aa) →
      continue_receiving_double_buffered d s =
        (.err d .WrongTxContinuation, s))
  ∧ (∀ ff aa, d.state.continuation = .RxDoubleBuffered ff aa →
      d.state.finished = true → s.faults = [] →
      (continue_receiving_double_buffered d s).1 =
        .ok ⟨d.seq, ⟨false, RxConfig.from_tx_config d.state.config ff aa⟩⟩) := by
  refine ⟨?_, ?_, ?_, ?_, ?_, ?_⟩
  · intro ff aa hc hfin
    simp [continue_receiving, hc, hfin]
  · intro hne
    rcases hcont : d.state.continuation with _ | ⟨ff, aa⟩ | ⟨ff, aa⟩
    · simp [continue_receiving, hcont]
    · exact absurd hcont (hne ff aa)
    · simp [continue_receiving, hcont]
  · intro ff aa hc hfin hf
    rcases s with ⟨r, tr, fs⟩
    obtain rfl : fs = [] := hf
    simp [continue_receiving, hc, hfin, reset_flags, sys_status_write,
      ec_ctrl_modify, M.bind, M.step]
  · intro ff aa hc hfin
    simp [continue_receiving_double_buffered, hc, hfin]
  · intro hne
    rcases hcont : d.state.continuation with _ | ⟨ff, aa⟩ | ⟨ff, aa⟩
    · simp [continue_receiving_double_buffered, hcont]
    · simp [continue_receiving_double_buffered, hcont]
    · exact absurd hcont (hne ff aa)
  · intro ff aa hc hfin hf
    rcases s with ⟨r, tr, fs⟩
    obtain rfl : fs = [] := hf
    by_cases hp : r.sys_status.hsrbp = r.sys_status.icrbp <;>
      simp [continue_receiving_double_buffered, hc, hfin, sys_status_read,
        reset_flags, sys_status_write, ec_ctrl_modify, sys_ctrl_modify,
        M.bind, M.read, M.step, M.pure, hp]

/-- Witness for C3: a finished single-buffer-RX-continuation device
transitions, and an unfinished one is rejected with `TxNotFinishedyet`. -/
theorem continue_receiving_guarded_transitions_witness :
    continue_receiving dSendRx st0 = (.err dSendRx .TxNotFinishedyet, st0)
  ∧ (continue_receiving dSendRxFin st0).1 =
      .ok ⟨7, ⟨false, RxConfig.from_tx_config txCfgRx false .Disabled⟩⟩ :=
  ⟨(continue_receiving_guarded_transitions dSendRx st0).1 false .Disabled
      rfl rfl,
   (continue_receiving_guarded_transitions dSendRxFin st0).2.2.1 false
      .Disabled rfl rfl rfl⟩

/-- C7 (amended): the `Sending`-mode transition operations that return
`Result<_, (Self, Error)>` — `finish_sending`, `abort_sending`,
`continue_receiving`, `continue_receiving_double_buffered` — always hand
the device back with its mode payload unchanged when they fail. -/
theorem sending_ops_failure_returns_device (d : DW1000 Sending) (s : St) :
    (∀ d2 e s2, finish_sending d s = (.err d2 e, s2) → d2 = d)
  ∧ (∀ d2 e s2, abort_sending d s = (.err d2 e, s2) → d2 = d)
  ∧ (∀ d2 e s2, continue_receiving d s = (.err d2 e, s2) → d2 = d)
  ∧ (∀ d2 e s2,
      continue_receiving_double_buffered d s = (.err d2 e, s2) → d2 = d) := by
  refine ⟨?_, ?_, ?_, ?_⟩ <;> intro d2 e s2 h
  · unfold finish_sending abort_sending at h
    repeat' split at h
    all_goals simp_all
  · unfold abort_sending at h
    repeat' split at h
    all_goals simp_all
  · unfold continue_receiving at h
    repeat' split at h
    all_goals simp_all
  · unfold continue_receiving_double_buffered at h
    repeat' split at h
    all_goals simp_all

/-- Witness for C7's amended theorem: `finish_sending` on a device with RX
continuation fails and returns that same device. -/
theorem sending_ops_failure_returns_device_witness : dSendRx = dSendRx :=
  (sending_ops_failure_returns_device dSendRx st0).1 dSendRx
    Error.WrongTxContinuation st0 (by decide)

/-- C7 counterexample: a failing `send_raw` run (first SPI transaction
faults) returns only the error — no device accompanies it, refuting the
claim that every listed operation returns both the device and the error on
failure. -/
theorem send_raw_failure_returns_no_device :
    (send_raw tuning0 dReady0 (Except.ok [1, 2, 3]) SendTime.Now txCfgReady
        stFault1).1 = Outcome.err Error.Spi
  ∧ ∀ dev : DW1000 Sending,
      (send_raw tuning0 dReady0 (Except.ok [1, 2, 3]) SendTime.Now txCfgReady
        stFault1).1 ≠ Outcome.ok dev := by
  constructor
  · decide
  · intro dev hdev
    have h : (send_raw tuning0 dReady0 (Except.ok [1, 2, 3]) SendTime.Now
        txCfgReady stFault1).1 = Outcome.err Error.Spi := by decide
    rw [h] at hdev
    exact Outcome.noConfusion hdev

/-- C1: one poll of `wait_transmit` checks, in order, the half-period
warning counter (nonzero gives `DelayedSendTooLate`), the power-up warning
counter (nonzero gives `DelayedSendPowerUpWarning`), and the TXFRS status
bit (zero gives would-block); on success it performs exactly one
fixed-pattern SYS_STATUS write clearing the four transmit flags, latches
`finished`, and returns the TX_TIME hardware timestamp as an `Instant`; a
subsequent poll of the resulting state would-blocks instead of reporting
success again. -/
theorem wait_transmit_poll (d : DW1000 Sending) (s : St)
    (hf : s.faults = []) :
    (s.regs.evc_hpw ≠ 0 →
      wait_transmit d s = (.err .DelayedSendTooLate, d,
        { s with trace := s.trace ++ [.rdEvcHpw] }))
  ∧ (s.regs.evc_hpw = 0 → s.regs.evc_tpw ≠ 0 →
      wait_transmit d s = (.err .DelayedSendPowerUpWarning, d,
        { s with trace := s.trace ++ [.rdEvcHpw, .rdEvcTpw] }))
  ∧ (s.regs.evc_hpw = 0 → s.regs.evc_tpw = 0 →
      s.regs.sys_status.txfrs = 0 →
      wait_transmit d s = (.wouldBlock, d,
        { s with trace := s.trace ++ [.rdEvcHpw, .rdEvcTpw, .rdSysStatus] }))
  ∧ (s.regs.evc_hpw = 0 → s.regs.evc_tpw = 0 →
      s.regs.sys_status.txfrs ≠ 0 →
      wait_transmit d s =
        (.ok (Instant.new_unchecked s.regs.tx_time),
         { d with state := { d.state with finished := true } },
         { s with
             regs := { s.regs with
                         sys_status := { s.regs.sys_status with
                                           txfrb := 0, txprs := 0,
                                           txphs := 0, txfrs := 0 } },
             trace := s.trace ++ [.rdEvcHpw, .rdEvcTpw, .rdSysStatus,
               .wrSysStatus { txfrb := 1, txprs := 1, txphs := 1,
                              txfrs := 1 },
               .rdTxTime] }))
  ∧ (s.regs.evc_hpw = 0 → s.regs.evc_tpw = 0 →
      s.regs.sys_status.txfrs ≠ 0 →
      (wait_transmit (wait_transmit d s).2.1 (wait_transmit d s).2.2).1 =
        .wouldBlock) := by
  rcases s with ⟨r, tr, fs⟩
  obtain rfl : fs = [] := hf
  refine ⟨?_, ?_, ?_, ?_, ?_⟩
  · intro h1
    replace h1 : r.evc_hpw ≠ 0 := h1
    simp [wait_transmit, waitTransmitM, evc_hpw_read, M.bind, M.read,
      M.pure, h1]
  · intro h1 h2
    replace h1 : r.evc_hpw = 0 := h1
    replace h2 : r.evc_tpw ≠ 0 := h2
    simp [wait_transmit, waitTransmitM, evc_hpw_read, evc_tpw_read, M.bind,
      M.read, M.pure, h1, h2]
  · intro h1 h2 h3
    replace h1 : r.evc_hpw = 0 := h1
    replace h2 : r.evc_tpw = 0 := h2
    replace h3 : r.sys_status.txfrs = 0 := h3
    simp [wait_transmit, waitTransmitM, evc_hpw_read, evc_tpw_read,
      sys_status_read, M.bind, M.read, M.pure, h1, h2, h3]
  · intro h1 h2 h3
    replace h1 : r.evc_hpw = 0 := h1
    replace h2 : r.evc_tpw = 0 := h2
    replace h3 : r.sys_status.txfrs ≠ 0 := h3
    simp [wait_transmit, waitTransmitM, evc_hpw_read, evc_tpw_read,
      sys_status_read, tx_time_read, reset_flags, sys_status_write,
      SysStatus.w1c, Instant.new_unchecked, M.bind, M.read, M.step, M.pure,
      h1, h2, h3]
  · intro h1 h2 h3
    replace h1 : r.evc_hpw = 0 := h1
    replace h2 : r.evc_tpw = 0 := h2
    replace h3 : r.sys_status.txfrs ≠ 0 := h3
    simp [wait_transmit, waitTransmitM, evc_hpw_read, evc_tpw_read,
      sys_status_read, tx_time_read, reset_flags, sys_status_write,
      SysStatus.w1c, Instant.new_unchecked, M.bind, M.read, M.step, M.pure,
      h1, h2, h3]

/-- Witness for C1: with TXFRS set and TX_TIME = 42, a poll succeeds with
timestamp 42 and the following poll would-blocks. -/
theorem wait_transmit_poll_witness :
    (wait_transmit dSendReady stTx).1 =
      NbResult.ok (Instant.new_unchecked 42)
  ∧ (wait_transmit (wait_transmit dSendReady stTx).2.1
      (wait_transmit dSendReady stTx).2.2).1 = NbResult.wouldBlock := by
  have h := wait_transmit_poll dSendReady stTx rfl
  constructor
  · rw [h.2.2.2.1 rfl rfl (by decide)]
    decide
  · exact h.2.2.2.2 rfl rfl (by decide)

/-- C9 (amended): with a wake duration, `enter_sleep` performs exactly this
register sequence — force the 19.2 MHz clock, disable the sleep counter,
program the counter value (while the counter is disabled), re-enable the
counter, upload the AON array, restore automatic clock selection — followed
by the antenna-delay read, optional wake-IRQ mask, OTP read, AON write
configuration, wake sources, and the upload-then-save.  The upload strobe
comes after the counter re-enable, not before it. -/
theorem enter_sleep_counter_program_order (d : DW1000 Ready) (irq : Bool)
    (sd : Nat) (s : St) (hf : s.faults = []) :
    (enter_sleep d irq (some sd) s).2.trace =
      s.trace ++ enterSleepTrace irq sd s.regs := by
  rcases s with ⟨r, tr, fs⟩
  obtain rfl : fs = [] := hf
  cases irq <;>
    simp [enter_sleep, enterSleepM, enterSleepTrace, enterSleepTimerTrace,
      pmsc_ctrl0_modify, aon_cfg1_write, aon_cfg0_write, aon_ctrl_write,
      aon_cfg0_modify, aon_wcfg_modify, sys_mask_modify,
      get_tx_antenna_delay, read_otp, M.bind, M.read, M.step, M.pure, b2n]

/-- Witness for C9's amended theorem at a concrete input. -/
theorem enter_sleep_counter_program_order_witness :
    (enter_sleep dReady0 true (some 5) st0).2.trace =
      st0.trace ++ enterSleepTrace true 5 st0.regs :=
  enter_sleep_counter_program_order dReady0 true 5 st0 rfl

/-- C9 counterexample: in the concrete trace of `enter_sleep` with a wake
duration, the counter re-enable write (AON_CFG1 `sleep_cen = 1`) comes
before the upload strobe (AON_CTRL `upl_cfg = 1`), refuting the claimed
upload-then-re-enable order. -/
theorem enter_sleep_upload_after_reenable :
    ((enter_sleep dReady0 false (some 5) st0).2.trace.findIdx
        isSleepCounterEnable <
      (enter_sleep dReady0 false (some 5) st0).2.trace.findIdx isAonUpload)
  ∧ ¬ ((enter_sleep dReady0 false (some 5) st0).2.trace.findIdx isAonUpload <
      (enter_sleep dReady0 false (some 5) st0).2.trace.findIdx
        isSleepCounterEnable) := by
  constructor
  · decide
  · decide

/-- C10: a successful `enter_sleep` with a wake duration returns a
`Sleeping` payload whose `tx_antenna_delay` is the TX_ANTD value read from
the chip, and when the OTP calibration word at address 0x004 reads zero the
regulator-tuning preservation flag ONW_LLDO is written as 0. -/
theorem enter_sleep_preserves_delay_and_lldo (d : DW1000 Ready) (irq : Bool)
    (sd : Nat) (s : St) (hf : s.faults = [])
    (hotp : otpLookup 4 s.regs.otp = 0) :
    (enter_sleep d irq (some sd) s).1 =
      .ok ⟨d.seq, { tx_antenna_delay := s.regs.tx_antd }⟩
  ∧ (enter_sleep d irq (some sd) s).2.regs.aon_wcfg.onw_lldo = 0 := by
  rcases s with ⟨r, tr, fs⟩
  obtain rfl : fs = [] := hf
  replace hotp : otpLookup 4 r.otp = 0 := hotp
  cases irq <;>
    constructor <;>
      simp [enter_sleep, enterSleepM, pmsc_ctrl0_modify, aon_cfg1_write,
        aon_cfg0_write, aon_ctrl_write, aon_cfg0_modify, aon_wcfg_modify,
        sys_mask_modify, get_tx_antenna_delay, read_otp, M.bind, M.read,
        M.step, M.pure, hotp, b2n]

/-- Witness for C10 at a concrete input: zero OTP, zero antenna delay. -/
theorem enter_sleep_preserves_delay_and_lldo_witness :
    (enter_sleep dReady0 false (some 3) st0).1 =
      Outcome.ok ⟨0, { tx_antenna_delay := 0 }⟩ :=
  (enter_sleep_preserves_delay_and_lldo dReady0 false 3 st0 rfl rfl).1

/-- C6 (amended): when the fallible `drx_tune1b` derivation fails for the
requested preamble-length/bitrate combination, `config_receiving` — and so
`receive`, `receive_auto_double_buffered` and `send_raw` with an RX
continuation — rejects the configuration with `InvalidConfiguration` and
performs nothing further (in particular the receiver is never started and
the transmission never triggered), but only after the receiver reset,
idle-force, frame-filtering, PLL-lock-detect, status-clear, channel/SFD and
first two receive-tuning registers have already been written: the chip is
left partially programmed. -/
theorem config_rejected_after_partial_programming (t : Tuning)
    (d : DW1000 Ready) (s : St) (hf : s.faults = []) :
    (∀ c : RxConfig,
      t.drx_tune1b c.expected_preamble_length c.bitrate = none →
      (receive t d c s).1 = .err .InvalidConfiguration
      ∧ (receive t d c s).2.trace =
          s.trace ++ configReceivingPrefix false false t c s.regs)
  ∧ (∀ c : RxConfig,
      t.drx_tune1b c.expected_preamble_length c.bitrate = none →
      (receive_auto_double_buffered t d c s).1 = .err .InvalidConfiguration
      ∧ (receive_auto_double_buffered t d c s).2.trace =
          s.trace ++ configReceivingPrefix true true t c s.regs)
  ∧ (∀ (cfg : TxConfig) (ff : Bool) (aa : AutoAck)
      (w : Except Unit (List Nat)) (st : SendTime),
      cfg.continuation = .Rx ff aa →
      t.drx_tune1b cfg.preamble_length cfg.bitrate = none →
      (send_raw t d w st cfg s).1 = .err .InvalidConfiguration
      ∧ (send_raw t d w st cfg s).2.trace =
          s.trace ++ configReceivingPrefix false false t
            (RxConfig.from_tx_config cfg ff aa) s.regs) := by
  rcases s with ⟨r, tr, fs⟩
  obtain rfl : fs = [] := hf
  refine ⟨?_, ?_, ?_⟩
  · intro c hbad
    obtain ⟨ch, br, prf, epl, sfd, ffl, aack⟩ := c
    replace hbad : t.drx_tune1b epl br = none := hbad
    cases sfd <;>
      constructor <;>
        simp [receive, config_receiving, configReceivingPrefix, force_idle,
          pmsc_ctrl0_modify, sys_ctrl_write, sys_cfg_modify, ec_ctrl_modify,
          sys_status_write, chan_ctrl_modify, sfd_length_write,
          drx_tune0b_write, drx_tune1a_write, M.note, M.bind, M.read,
          M.step, M.pure, M.fail, hbad]
  · intro c hbad
    obtain ⟨ch, br, prf, epl, sfd, ffl, aack⟩ := c
    replace hbad : t.drx_tune1b epl br = none := hbad
    cases sfd <;>
      constructor <;>
        simp [receive_auto_double_buffered, config_receiving,
          configReceivingPrefix, force_idle, pmsc_ctrl0_modify,
          sys_ctrl_write, sys_cfg_modify, ec_ctrl_modify, sys_status_write,
          chan_ctrl_modify, sfd_length_write, drx_tune0b_write,
          drx_tune1a_write, M.note, M.bind, M.read, M.step, M.pure, M.fail,
          hbad]
  · intro cfg ff aa w st hc hbad
    obtain ⟨ch, br, prf, pl, sfd, re, ac, cont⟩ := cfg
    replace hc : cont = .Rx ff aa := hc
    replace hbad : t.drx_tune1b pl br = none := hbad
    subst hc
    cases sfd <;>
      constructor <;>
        simp [send_raw, sendRawM, sendRawPrep, config_receiving, configReceivingPrefix,
          RxConfig.from_tx_config, force_idle, pmsc_ctrl0_modify,
          sys_ctrl_write, sys_cfg_modify, ec_ctrl_modify, sys_status_write,
          chan_ctrl_modify, sfd_length_write, drx_tune0b_write,
          drx_tune1a_write, M.note, M.bind, M.read, M.step, M.pure, M.fail,
          hbad]

/-- Witness for C6's amended theorem at a concrete configuration whose
tuning derivation fails. -/
theorem config_rejected_after_partial_programming_witness :
    (receive tuningBad dReady0 rxCfg0 st0).1 = .err .InvalidConfiguration :=
  ((config_rejected_after_partial_programming tuningBad dReady0 st0
      rfl).1 rxCfg0 rfl).1

/-- C6 counterexample: at a concrete unsupported configuration the driver
does reject with `InvalidConfiguration`, but the trace already contains
register writes at that point — the rejection does not happen before any
register write. -/
theorem config_rejection_not_before_writes :
    (receive tuningBad dReady0 rxCfg0 st0).1 = .err .InvalidConfiguration
  ∧ writesOf (receive tuningBad dReady0 rxCfg0 st0).2.trace ≠ [] := by
  constructor
  · decide
  · decide

theorem preservesObs_sendRawPrep_buf (t : Tuning) (cfg : TxConfig) :
    PreservesObs bufObs (sendRawPrep t cfg) := by
  unfold sendRawPrep
  rcases hcont : cfg.continuation with _ | ⟨ff, aa⟩ | ⟨ff, aa⟩ <;>
    simp only [hcont]
  · repeat
      first
      | exact preservesObs_step _ _ _ (fun r => rfl)
      | exact preservesObs_read _ _ _ rfl
      | refine preservesObs_bind ?_ (fun a => ?_)
  · exact config_receiving_bufObs _ _ _ _
  · exact config_receiving_bufObs _ _ _ _

theorem preservesObs_sendRawPrep_marker_ready (t : Tuning) (cfg : TxConfig)
    (hc : cfg.continuation = .Ready) :
    PreservesObs markerObs (sendRawPrep t cfg) := by
  unfold sendRawPrep
  simp only [hc]
  repeat
    first
    | exact preservesObs_step _ _ _ (fun r => rfl)
    | exact preservesObs_read _ _ _ rfl
    | refine preservesObs_bind ?_ (fun a => ?_)

theorem sendRawPrep_markers_rx (t : Tuning) (cfg : TxConfig) (ff : Bool)
    (aa : AutoAck) (hc : cfg.continuation = .Rx ff aa) :
    AppendsObs markerObs (sendRawPrep t cfg)
      [RxConfig.from_tx_config cfg ff aa] := by
  unfold sendRawPrep
  simp only [hc]
  exact config_receiving_markers false false t _

theorem sendRawPrep_markers_rxdb (t : Tuning) (cfg : TxConfig) (ff : Bool)
    (aa : AutoAck) (hc : cfg.continuation = .RxDoubleBuffered ff aa) :
    AppendsObs markerObs (sendRawPrep t cfg)
      [RxConfig.from_tx_config cfg ff aa] := by
  unfold sendRawPrep
  simp only [hc]
  exact config_receiving_markers true true t _

theorem preservesObs_sendRawDelay {β : Type} (obs : Action → Option β)
    (st : SendTime) (h1 : ∀ v, obs (.wrDxTime v) = none)
    (h2 : ∀ v, obs (.wrEcCtrl v) = none) :
    PreservesObs obs (sendRawDelay st) := by
  cases st
  · exact preservesObs_pure _ _
  · exact preservesObs_step _ _ _ (fun r => h1 _)
  · exact preservesObs_step _ _ _ (fun r => h2 _)

theorem sendRawTail_markerObs (t : Tuning) (st : SendTime) (cfg : TxConfig)
    (len : Nat) : PreservesObs markerObs (sendRawTail t st cfg len) := by
  unfold sendRawTail
  repeat
    first
    | exact preservesObs_step _ _ _ (fun r => rfl)
    | exact preservesObs_pure _ _
    | refine preservesObs_bind ?_ (fun a => ?_)
    | split

theorem sendRawTail_bufObs (t : Tuning) (st : SendTime) (cfg : TxConfig)
    (len : Nat) : PreservesObs bufObs (sendRawTail t st cfg len) := by
  unfold sendRawTail
  repeat
    first
    | exact preservesObs_step _ _ _ (fun r => rfl)
    | exact preservesObs_pure _ _
    | refine preservesObs_bind ?_ (fun a => ?_)
    | split

theorem sendRawM_markers_rx (t : Tuning) (w : Except Unit (List Nat))
    (st : SendTime) (cfg : TxConfig) (ff : Bool) (aa : AutoAck)
    (hc : cfg.continuation = .Rx ff aa) :
    AppendsObs markerObs (sendRawM t w st cfg)
      [RxConfig.from_tx_config cfg ff aa] := by
  unfold sendRawM
  refine appendsObs_bind (sendRawPrep_markers_rx t cfg ff aa hc)
    (fun a => ?_)
  refine preservesObs_bind
    (preservesObs_sendRawDelay markerObs st (fun v => rfl) (fun v => rfl))
    (fun b => ?_)
  refine preservesObs_bind
    (preservesObs_tx_buffer_write markerObs w (fun b2 => rfl)) (fun c => ?_)
  exact sendRawTail_markerObs t st cfg _

theorem sendRawM_markers_rxdb (t : Tuning) (w : Except Unit (List Nat))
    (st : SendTime) (cfg : TxConfig) (ff : Bool) (aa : AutoAck)
    (hc : cfg.continuation = .RxDoubleBuffered ff aa) :
    AppendsObs markerObs (sendRawM t w st cfg)
      [RxConfig.from_tx_config cfg ff aa] := by
  unfold sendRawM
  refine appendsObs_bind (sendRawPrep_markers_rxdb t cfg ff aa hc)
    (fun a => ?_)
  refine preservesObs_bind
    (preservesObs_sendRawDelay markerObs st (fun v => rfl) (fun v => rfl))
    (fun b => ?_)
  refine preservesObs_bind
    (preservesObs_tx_buffer_write markerObs w (fun b2 => rfl)) (fun c => ?_)
  exact sendRawTail_markerObs t st cfg _

theorem send_raw_state_eq (t : Tuning) (d : DW1000 Ready)
    (w : Except Unit (List Nat)) (st : SendTime) (cfg : TxConfig) (s : St) :
    (send_raw t d w st cfg s).2 = (sendRawM t w st cfg s).2 := by
  unfold send_raw
  rcases sendRawM t w st cfg s with ⟨res, s2⟩
  cases res with
  | ok a => rfl
  | error f => cases f <;> rfl

/-- C5: `RxConfig.from_tx_config` copies channel, bitrate, PRF and SFD
sequence verbatim from the `TxConfig`, taking only frame filtering and
auto-ack from the continuation-specific arguments; and every RX
continuation config the driver constructs — in `continue_receiving`,
`continue_receiving_double_buffered`, and both RX paths of `send_raw` —
is exactly this derivation applied to the continuation's arguments. -/
theorem rx_config_always_derived :
    (∀ (tx : TxConfig) (ff : Bool) (aa : AutoAck),
      (RxConfig.from_tx_config tx ff aa).channel = tx.channel
      ∧ (RxConfig.from_tx_config tx ff aa).bitrate = tx.bitrate
      ∧ (RxConfig.from_tx_config tx ff aa).pulse_repetition_frequency =
          tx.pulse_repetition_frequency
      ∧ (RxConfig.from_tx_config tx ff aa).sfd_sequence = tx.sfd_sequence
      ∧ (RxConfig.from_tx_config tx ff aa).frame_filtering = ff
      ∧ (RxConfig.from_tx_config tx ff aa).auto_ack = aa)
  ∧ (∀ (d : DW1000 Sending) (s : St) (ff : Bool) (aa : AutoAck) dev s2,
      d.state.continuation = .Rx ff aa →
      continue_receiving d s = (.ok dev, s2) →
      dev.state.config = RxConfig.from_tx_config d.state.config ff aa)
  ∧ (∀ (d : DW1000 Sending) (s : St) (ff : Bool) (aa : AutoAck) dev s2,
      d.state.continuation = .RxDoubleBuffered ff aa →
      continue_receiving_double_buffered d s = (.ok dev, s2) →
      dev.state.config = RxConfig.from_tx_config d.state.config ff aa)
  ∧ (∀ (t : Tuning) (d : DW1000 Ready) (w : Except Unit (List Nat))
      (st : SendTime) (cfg : TxConfig) (ff : Bool) (aa : AutoAck) (s : St),
      cfg.continuation = .Rx ff aa →
      rxConfigsUsed (send_raw t d w st cfg s).2.trace =
        rxConfigsUsed s.trace ++ [RxConfig.from_tx_config cfg ff aa])
  ∧ (∀ (t : Tuning) (d : DW1000 Ready) (w : Except Unit (List Nat))
      (st : SendTime) (cfg : TxConfig) (ff : Bool) (aa : AutoAck) (s : St),
      cfg.continuation = .RxDoubleBuffered ff aa →
      rxConfigsUsed (send_raw t d w st cfg s).2.trace =
        rxConfigsUsed s.trace ++ [RxConfig.from_tx_config cfg ff aa]) := by
  refine ⟨fun tx ff aa => ⟨rfl, rfl, rfl, rfl, rfl, rfl⟩, ?_, ?_, ?_, ?_⟩
  · intro d s ff aa dev s2 hc hok
    unfold continue_receiving at hok
    simp only [hc] at hok
    repeat' split at hok
    all_goals simp only [Prod.mk.injEq, TransitionOutcome.ok.injEq] at hok
    all_goals
      first
        | (obtain ⟨hdev, -⟩ := hok
           rw [← hdev])
        | simp_all
  · intro d s ff aa dev s2 hc hok
    unfold continue_receiving_double_buffered at hok
    simp only [hc] at hok
    repeat' split at hok
    all_goals simp only [Prod.mk.injEq, TransitionOutcome.ok.injEq] at hok
    all_goals
      first
        | (obtain ⟨hdev, -⟩ := hok
           rw [← hdev])
        | simp_all
  · intro t d w st cfg ff aa s hc
    rw [send_raw_state_eq]
    exact sendRawM_markers_rx t w st cfg ff aa hc s
  · intro t d w st cfg ff aa s hc
    rw [send_raw_state_eq]
    exact sendRawM_markers_rxdb t w st cfg ff aa hc s

/-- Witness for C5: a concrete `send_raw` run with single-buffer RX
continuation records exactly the derived `RxConfig`. -/
theorem rx_config_always_derived_witness :
    rxConfigsUsed (send_raw tuning0 dReady0 (Except.ok [1]) SendTime.Now
        txCfgRx st0).2.trace =
      rxConfigsUsed st0.trace
        ++ [RxConfig.from_tx_config txCfgRx false .Disabled] :=
  rx_config_always_derived.2.2.2.1 tuning0 dReady0 (Except.ok [1])
    SendTime.Now txCfgRx false .Disabled st0 rfl

theorem sendRawM_panicking_writer_not_ok (t : Tuning) (u : Unit)
    (st : SendTime) (cfg : TxConfig) (s : St) (a : Unit) (s2 : St) :
    sendRawM t (.error u) st cfg s ≠ (.ok a, s2) := by
  intro h
  unfold sendRawM at h
  obtain ⟨a1, s1, h1, h⟩ := M.bind_ok h
  obtain ⟨a2, sB, h2, h⟩ := M.bind_ok h
  obtain ⟨a3, sC, h3, h⟩ := M.bind_ok h
  simp [tx_buffer_write, M.panic] at h3

theorem sendRawM_ok_txBufferWrites (t : Tuning) (bytes : List Nat)
    (st : SendTime) (cfg : TxConfig) {s : St} {a : Unit} {s2 : St}
    (h : sendRawM t (.ok bytes) st cfg s = (.ok a, s2)) :
    txBufferWrites s2.trace = txBufferWrites s.trace ++ [bytes] := by
  unfold sendRawM at h
  obtain ⟨a1, s1, h1, h⟩ := M.bind_ok h
  obtain ⟨a2, sB, h2, h⟩ := M.bind_ok h
  obtain ⟨a3, sC, h3, h⟩ := M.bind_ok h
  have p1 : txBufferWrites s1.trace = txBufferWrites s.trace := by
    have hp := preservesObs_sendRawPrep_buf t cfg s
    rw [h1] at hp
    exact hp
  have p2 : txBufferWrites sB.trace = txBufferWrites s1.trace := by
    have hp := preservesObs_sendRawDelay bufObs st (fun v => rfl)
      (fun v => rfl) s1
    rw [h2] at hp
    exact hp
  have p3 : txBufferWrites sC.trace = txBufferWrites sB.trace ++ [bytes] := by
    unfold tx_buffer_write M.step at h3
    rcases sB with ⟨r, tr, fs⟩
    rcases fs with _ | ⟨b, bs⟩
    · simp only [Prod.mk.injEq] at h3
      obtain ⟨-, h3b⟩ := h3
      rw [← h3b]
      simp [txBufferWrites, List.filterMap_append, bufObs]
    · cases b
      · simp only [Prod.mk.injEq] at h3
        obtain ⟨-, h3b⟩ := h3
        rw [← h3b]
        simp [txBufferWrites, List.filterMap_append, bufObs]
      · simp at h3
  have p4 : txBufferWrites s2.trace = txBufferWrites sC.trace := by
    have hp := sendRawTail_bufObs t st cfg
      ((Except.ok bytes : Except Unit (List Nat)).toOption.getD []).length sC
    rw [h] at hp
    exact hp
  rw [p4, p3, p2, p1]

/-- C2: `next_seq` returns the current 8-bit counter and advances it by
exactly one modulo 256 (255 wraps to 0); `send` draws exactly one sequence
number per call, and every successful `send` returns a device whose counter
advanced by exactly one while the frame serialized into the TX buffer
carries the pre-increment counter value. -/
theorem send_increments_seq_once (tuning : Tuning) (d : DW1000 Ready)
    (data : List Nat) (dest : Option (Nat × Nat)) (st : SendTime)
    (cfg : TxConfig) (s : St) :
    next_seq d = (d.seq, { d with seq := (d.seq + 1) % 256 })
  ∧ (d.seq = 255 → (next_seq d).2.seq = 0)
  ∧ (∀ dev s2, send tuning d data dest st cfg s = (.ok dev, s2) →
      dev.seq = (d.seq + 1) % 256
      ∧ txBufferWrites s2.trace = txBufferWrites s.trace
          ++ [serializeFrame (buildFrame d.seq dest
                (some (s.regs.panadr.pan_id, s.regs.panadr.short_addr))
                data)]) := by
  refine ⟨rfl, ?_, ?_⟩
  · intro h
    simp [next_seq, h]
  · intro dev s2 hok
    rcases s with ⟨r, tr, fs⟩
    rcases fs with _ | ⟨b, bs⟩
    · unfold send at hok
      simp only [next_seq, get_address, M.read] at hok
      rcases henc : encodeFrame (buildFrame d.seq dest
          (some (r.panadr.pan_id, r.panadr.short_addr)) data)
          TX_BUFFER_LEN with u | bytes
      · rw [henc] at hok
        unfold send_raw at hok
        rcases hrun : sendRawM tuning (.error u) st cfg
          { regs := r, trace := tr ++ [.rdPanadr], faults := [] }
          with ⟨res, sx⟩
        rw [hrun] at hok
        cases res with
        | ok a => exact absurd hrun (sendRawM_panicking_writer_not_ok
            tuning u st cfg _ a sx)
        | error f => cases f <;> simp at hok
      · rw [henc] at hok
        unfold send_raw at hok
        rcases hrun : sendRawM tuning (.ok bytes) st cfg
          { regs := r, trace := tr ++ [.rdPanadr], faults := [] }
          with ⟨res, sx⟩
        rw [hrun] at hok
        cases res with
        | error f => cases f <;> simp at hok
        | ok a =>
            simp only [Prod.mk.injEq, Outcome.ok.injEq] at hok
            obtain ⟨hdev, hs2⟩ := hok
            subst hs2
            constructor
            · rw [← hdev]
            · have hb := sendRawM_ok_txBufferWrites tuning bytes st cfg hrun
              have hbytes : bytes = serializeFrame (buildFrame d.seq dest
                  (some (r.panadr.pan_id, r.panadr.short_addr)) data) := by
                by_cases hlen : (serializeFrame (buildFrame d.seq dest
                    (some (r.panadr.pan_id, r.panadr.short_addr))
                    data)).length ≤ TX_BUFFER_LEN
                · simp [encodeFrame, hlen] at henc
                  exact henc.symm
                · simp [encodeFrame, hlen] at henc
              rw [hb, hbytes]
              simp [txBufferWrites, List.filterMap_append, bufObs]
    · cases b
      · unfold send at hok
        simp only [next_seq, get_address, M.read] at hok
        rcases henc : encodeFrame (buildFrame d.seq dest
            (some (r.panadr.pan_id, r.panadr.short_addr)) data)
            TX_BUFFER_LEN with u | bytes
        · rw [henc] at hok
          unfold send_raw at hok
          rcases hrun : sendRawM tuning (.error u) st cfg
            { regs := r, trace := tr ++ [.rdPanadr], faults := bs }
            with ⟨res, sx⟩
          rw [hrun] at hok
          cases res with
          | ok a => exact absurd hrun (sendRawM_panicking_writer_not_ok
              tuning u st cfg _ a sx)
          | error f => cases f <;> simp at hok
        · rw [henc] at hok
          unfold send_raw at hok
          rcases hrun : sendRawM tuning (.ok bytes) st cfg
            { regs := r, trace := tr ++ [.rdPanadr], faults := bs }
            with ⟨res, sx⟩
          rw [hrun] at hok
          cases res with
          | error f => cases f <;> simp at hok
          | ok a =>
              simp only [Prod.mk.injEq, Outcome.ok.injEq] at hok
              obtain ⟨hdev, hs2⟩ := hok
              subst hs2
              constructor
              · rw [← hdev]
              · have hb := sendRawM_ok_txBufferWrites tuning bytes st cfg
                  hrun
                have hbytes : bytes = serializeFrame (buildFrame d.seq dest
                    (some (r.panadr.pan_id, r.panadr.short_addr)) data) := by
                  by_cases hlen : (serializeFrame (buildFrame d.seq dest
                      (some (r.panadr.pan_id, r.panadr.short_addr))
                      data)).length ≤ TX_BUFFER_LEN
                  · simp [encodeFrame, hlen] at henc
                    exact henc.symm
                  · simp [encodeFrame, hlen] at henc
                rw [hb, hbytes]
                simp [txBufferWrites, List.filterMap_append, bufObs]
      · unfold send at hok
        simp only [next_seq, get_address, M.read] at hok
        simp [failToOutcome] at hok

/-- Witness for C2: the counter wraps 255 to 0 at a concrete device. -/
theorem send_increments_seq_once_witness :
    (next_seq ⟨255, {}⟩).2.seq = 0 :=
  (send_increments_seq_once tuning0 ⟨255, {}⟩ [] none SendTime.Now
      txCfgReady st0).2.1 rfl

set_option maxRecDepth 8192

/-- C8 (evaluation of the code bug): a `send` whose frame does not fit the
127-byte TX buffer — a 125-byte payload under short addressing serializes
to 136 bytes — makes the writer closure panic (`panic!` in `send`'s
encoder), instead of returning the serialization error the spec
describes. -/
theorem send_panics_on_encode_failure :
    (send tuning0 dReady0 (List.replicate 125 0) (some (9, 9)) SendTime.Now
        txCfgReady st0).1 = Outcome.panicked := by decide

end Dw
